import Mathlib

/-!
Shallow embedding of the AEO analysis engine
(`src/server/src/services/analyzer/**`, `src/shared/src/utils/*`):
the document model, the ten category analyzers, and the orchestrator
`AEOAnalyzer.analyzeWebpage`, together with theorems checking the
specification's claims against this embedding.

Modelling conventions:
* JS numbers that hold integer values are `Int` (or `Nat` for levels/counts);
  the two places the code divides (`Math.round(x/y)` and the Flesch formula)
  are modelled over `ℚ` with `Math.round q = ⌊q + 1/2⌋`.
* JS strings are Lean `String`s; all string scanning (split, includes,
  startsWith, …) is implemented structurally over `String.data` so that the
  kernel can evaluate it.
* `async` functions contain no real concurrency; they are modelled as pure
  functions.  A thrown exception is modelled as `Option.none` where a claim
  needs it (the orchestrator's per-category try/catch).
-/

/-! ### Rational rounding (JS `Math.round`, `Math.min`/`Math.max`) -/

/-- Floor of a rational computed on its components. -/
def ratFloor (q : ℚ) : Int := q.num.fdiv q.den

/-- JS `Math.round`: round half toward positive infinity, `⌊x + 1/2⌋`. -/
def mathRound (q : ℚ) : Int := ratFloor (q + 1/2)

theorem ratFloor_eq_floor (q : ℚ) : ratFloor q = ⌊q⌋ := by
  rw [Rat.floor_def]
  exact Int.fdiv_eq_ediv _ (by positivity)

theorem mathRound_eq_floor (q : ℚ) : mathRound q = ⌊q + 1/2⌋ := by
  rw [mathRound, ratFloor_eq_floor]

theorem mathRound_nonneg {q : ℚ} (h : 0 ≤ q) : 0 ≤ mathRound q := by
  rw [mathRound_eq_floor]
  exact Int.floor_nonneg.mpr (by linarith)

theorem mathRound_le_100 {q : ℚ} (h : q ≤ 100) : mathRound q ≤ 100 := by
  rw [mathRound_eq_floor]
  have h1 : q + 1/2 < ((101 : ℤ) : ℚ) := by push_cast; linarith
  have := Int.floor_lt.mpr h1
  omega

/-- Evaluation rule: `Math.round` of an integer quotient, as integer
arithmetic (`/` is `Int` euclidean division, the divisor is positive). -/
theorem mathRound_intCast_div (n : ℤ) (d : ℕ) (hd : 0 < d) :
    mathRound ((n : ℚ) / (d : ℚ)) = (2 * n + d) / (2 * (d : ℤ)) := by
  rw [mathRound_eq_floor]
  have hdq : ((d : ℚ)) ≠ 0 := by positivity
  have : (n : ℚ) / (d : ℚ) + 1/2 = ((2 * n + d : ℤ) : ℚ) / ((2 * d : ℕ) : ℚ) := by
    push_cast
    field_simp
    ring
  rw [this, Rat.floor_intCast_div_natCast]
  push_cast
  rfl

/-! ### JS string primitives, structurally over `List Char` -/

/-- Maximal runs of characters not satisfying `p` (used for `split(regex)`
with a one-character-class regex under `+`, followed by dropping empties). -/
def charRuns (p : Char → Bool) : List Char → List Char → List (List Char)
  | [], acc => if acc.isEmpty then [] else [acc.reverse]
  | c :: cs, acc =>
    if p c then
      (if acc.isEmpty then charRuns p cs [] else acc.reverse :: charRuns p cs [])
    else charRuns p cs (c :: acc)

/-- The word tokens of a string: maximal runs of non-whitespace characters.
`text.trim().split(/\s+/).filter(w => w.length > 0)` produces exactly these. -/
def wordRuns (s : String) : List (List Char) :=
  charRuns (fun c => c.isWhitespace) s.data []

/-- `BaseAnalyzer.countWords`:
`text.trim().split(/\s+/).filter(word => word.length > 0).length`. -/
def countWords (text : String) : Nat := (wordRuns text).length

/-- Length of JS `s.split(/\s+/)` without filtering: the non-empty tokens
plus a leading empty string when `s` starts with whitespace and a trailing
empty string when it ends with whitespace; `""` splits to `[""]`. -/
def jsSplitWsCount (s : String) : Nat :=
  match s.data with
  | [] => 1
  | c :: cs =>
    (wordRuns s).length
      + (if c.isWhitespace then 1 else 0)
      + (if ((c :: cs).getLastD c).isWhitespace then 1 else 0)

/-- JS `String.prototype.includes` (substring test). -/
def strIncludesL : List Char → List Char → Bool
  | hay, needle =>
    needle.isPrefixOf hay ||
      match hay with
      | [] => false
      | _ :: t => strIncludesL t needle

def strIncludes (s sub : String) : Bool := strIncludesL s.data sub.data

/-- JS `String.prototype.startsWith`. -/
def strStartsWith (s pre : String) : Bool := pre.data.isPrefixOf s.data

/-- JS `String.prototype.endsWith`. -/
def strEndsWith (s post : String) : Bool := post.data.isSuffixOf s.data

/-- JS `String.prototype.toLowerCase` (ASCII, which is all the code uses). -/
def strToLower (s : String) : String := ⟨s.data.map Char.toLower⟩

/-- The sentence pieces of `text.split(/[.!?]+/).filter(s => s.trim().length > 0)`:
maximal runs free of `.`/`!`/`?` that contain a non-whitespace character. -/
def sentencePieces (text : String) : List (List Char) :=
  (charRuns (fun c => c = '.' || c = '!' || c = '?') text.data []).filter
    (fun piece => piece.any (fun c => !c.isWhitespace))

/-- Word count of a piece produced by a split (re-wraps the chars). -/
def pieceWordCount (piece : List Char) : Nat := countWords ⟨piece⟩

/-! ### Enumerations of the shared type layer (`shared/src/types/index.ts`) -/

inductive Severity where
  | critical | high | medium | low
deriving DecidableEq, Repr

inductive AnalysisStatus where
  | pending | inProgress | completed | failed
deriving DecidableEq, Repr

inductive AEOCategory where
  | faq_schema | schema_markup | content_structure | featured_snippets
  | entity_optimization | meta_tags | semantic_html | voice_search
  | knowledge_graph | technical_seo
deriving DecidableEq, Repr

/-- `Object.values(AEOCategory)`: declaration order of the enum. -/
def allCategories : List AEOCategory :=
  [.faq_schema, .schema_markup, .content_structure, .featured_snippets,
   .entity_optimization, .meta_tags, .semantic_html, .voice_search,
   .knowledge_graph, .technical_seo]

/-- The string value of each `AEOCategory` enum member. -/
def categoryValue : AEOCategory → String
  | .faq_schema => "faq_schema"
  | .schema_markup => "schema_markup"
  | .content_structure => "content_structure"
  | .featured_snippets => "featured_snippets"
  | .entity_optimization => "entity_optimization"
  | .meta_tags => "meta_tags"
  | .semantic_html => "semantic_html"
  | .voice_search => "voice_search"
  | .knowledge_graph => "knowledge_graph"
  | .technical_seo => "technical_seo"

/-! ### The document model (`ScrapedData`) -/

structure Heading where
  level : Nat
  text : String
  id : Option String := none
deriving DecidableEq, Repr

/-- One `mainEntity` element of an FAQ schema.  The analyzer reads
`entry.name || ''` and `entry.acceptedAnswer?.text || ''`; since `undefined`
and `''` are both mapped to `''`, both fields are plain strings here. -/
structure FAQEntry where
  name : String
  acceptedAnswerText : String
deriving DecidableEq, Repr

/-- The parts of a structured-data block's `data` object that the analyzers
read: its `@type` value (a string when present), its `mainEntity` array
(`faqData.mainEntity || []`; absent is the empty list), and the object's own
enumerable keys with the JS truthiness of each value (`Object.keys(data)` and
`data.<prop>` checks).  The instantiator keeps `props` consistent with the
other two fields. -/
structure SchemaData where
  atType : Option String := none
  mainEntity : List FAQEntry := []
  props : List (String × Bool) := []
deriving DecidableEq, Repr

/-- JS truthiness of `data.<key>`: the key exists and its value is truthy. -/
def SchemaData.truthy (d : SchemaData) (key : String) : Bool :=
  ((d.props.find? (fun p => p.1 = key)).map Prod.snd).getD false

structure SchemaMarkup where
  type : String
  data : SchemaData
  isValid : Bool
  errors : List String := []
deriving DecidableEq, Repr

structure MetaTag where
  name : Option String := none
  property : Option String := none
  content : String
deriving DecidableEq, Repr

structure OpenGraphTag where
  property : String
  content : String
deriving DecidableEq, Repr

structure ImageData where
  src : String
  alt : Option String := none
  title : Option String := none
  width : Option Int := none
  height : Option Int := none
deriving DecidableEq, Repr

structure LinkData where
  href : String
  text : String
  isInternal : Bool
  rel : Option String := none
deriving DecidableEq, Repr

structure CoreWebVitals where
  lcp : Option Int := none
  fid : Option Int := none
  cls : Option Int := none
deriving DecidableEq, Repr

structure PerformanceMetrics where
  loadTime : Int
  pageSize : Int
  coreWebVitals : Option CoreWebVitals := none
deriving DecidableEq, Repr

structure ScrapedData where
  url : String
  title : String
  metaDescription : String
  headings : List Heading
  content : String
  schemas : List SchemaMarkup
  metaTags : List MetaTag
  openGraphTags : List OpenGraphTag
  images : List ImageData
  links : List LinkData
  performance : PerformanceMetrics
deriving DecidableEq, Repr

/-! ### Analyzer result types (`BaseAnalyzer.ts`, `AEOAnalyzer.ts`) -/

structure AnalyzerIssue where
  severity : Severity
  title : String
  description : String
  impact : String
  fixable : Bool
deriving DecidableEq, Repr

structure AnalyzerRecommendation where
  priority : Int
  title : String
  description : String
  estimatedImpact : Int
  implementationTime : Int
deriving DecidableEq, Repr

structure AnalyzerResult where
  score : ℚ
  issues : List AnalyzerIssue
  recommendations : List AnalyzerRecommendation
deriving DecidableEq, Repr

structure CategoryIssue extends AnalyzerIssue where
  category : AEOCategory
deriving DecidableEq, Repr

structure CategoryRecommendation extends AnalyzerRecommendation where
  category : AEOCategory
deriving DecidableEq, Repr

/-- `CategoryScores` (camelCase keys, declaration order as in the source).
Scores are JS numbers; the schema-markup analyzer can produce a fractional
value (its completeness term divides without rounding), so the fields are
rationals. -/
structure CategoryScores where
  faqSchema : ℚ
  schemaMarkup : ℚ
  contentStructure : ℚ
  featuredSnippets : ℚ
  entityOptimization : ℚ
  metaTags : ℚ
  semanticHtml : ℚ
  voiceSearch : ℚ
  knowledgeGraph : ℚ
  technicalSeo : ℚ
deriving DecidableEq, Repr

structure AnalysisResult where
  overallScore : Int
  categoryScores : CategoryScores
  issues : List CategoryIssue
  recommendations : List CategoryRecommendation
  status : AnalysisStatus
deriving DecidableEq, Repr

structure AnalysisOptions where
  categories : Option (List AEOCategory) := none
  quick : Bool := false
  includeRecommendations : Bool := false
deriving DecidableEq, Repr

/-! ### Shared helpers from `BaseAnalyzer.ts` -/

/-- `BaseAnalyzer.calculateScore`: weighted blend
`round(Σ score·weight / Σ weight)`, `0` when the total weight is `0`. -/
def calculateScore (factors : List (Int × Int)) : Int :=
  let totalWeight : Int := factors.foldl (fun sum f => sum + f.1) 0
  let weightedSum : Int := factors.foldl (fun sum f => sum + f.2 * f.1) 0
  if 0 < totalWeight then mathRound ((weightedSum : ℚ) / (totalWeight : ℚ)) else 0

/-- `getSeverityFromScore` (both the shared helper and the base-class copy):
`≥80 → low, ≥60 → medium, ≥40 → high, else critical`. -/
def getSeverityFromScore (score : ℚ) : Severity :=
  if score ≥ 80 then .low
  else if score ≥ 60 then .medium
  else if score ≥ 40 then .high
  else .critical

/-- `BaseAnalyzer.containsKeywords`: case-insensitive `includes` over a list. -/
def containsKeywords (text : String) (keywords : List String) : Bool :=
  keywords.any (fun k => strIncludes (strToLower text) (strToLower k))

/-- `BaseAnalyzer.isValidUrl` (`new URL(url)` succeeds).  Approximation of the
WHATWG URL parser, used by the code only as a boolean signal: a scheme
(letter followed by letters/digits/`+`/`-`/`.`) then `:`, with a non-empty
remainder. -/
def jsIsValidUrl (url : String) : Bool :=
  match url.data with
  | [] => false
  | c :: rest =>
    c.isAlpha &&
      (let tail := rest.dropWhile fun d =>
          d.isAlpha || d.isDigit || d = '+' || d = '-' || d = '.'
       match tail with
       | ':' :: r => !r.isEmpty
       | _ => false)

/-- `BaseAnalyzer.findSnippetCandidates`: sentences of 40–60 words. -/
def findSnippetCandidates (text : String) : List (List Char) :=
  (sentencePieces text).filter
    (fun s => 40 ≤ pieceWordCount s && pieceWordCount s ≤ 60)

/-- `BaseAnalyzer.validateHeadingStructure` result. -/
structure HeadingValidation where
  isValid : Bool
  issues : List String
deriving DecidableEq, Repr

/-- Issue strings for level jumps between consecutive headings. -/
def headingJumpIssues : List Heading → List String
  | [] => []
  | [_] => []
  | prev :: cur :: rest =>
    (if cur.level > prev.level + 1 then
      ["Heading level jumps from H" ++ toString prev.level ++
        " to H" ++ toString cur.level]
     else []) ++ headingJumpIssues (cur :: rest)

/-- Whether some consecutive pair jumps by more than one level. -/
def hasHeadingJump : List Heading → Bool
  | [] => false
  | [_] => false
  | prev :: cur :: rest =>
    (cur.level > prev.level + 1) || hasHeadingJump (cur :: rest)

/-- `BaseAnalyzer.validateHeadingStructure`. -/
def validateHeadingStructure (headings : List Heading) : HeadingValidation :=
  if headings.length = 0 then
    { isValid := false, issues := ["No headings found"] }
  else
    let h1Count := (headings.filter (fun h => h.level = 1)).length
    let h1Issues : List String :=
      if h1Count = 0 then ["Missing H1 tag"]
      else if h1Count > 1 then ["Multiple H1 tags found"]
      else []
    { isValid := h1Count = 1 && !hasHeadingJump headings,
      issues := h1Issues ++ headingJumpIssues headings }

/-- `BaseAnalyzer.countSyllables`: vowel-group count on the lowercased word,
minus one for a trailing `e`, floored at 1; words of ≤3 characters count 1. -/
def countSyllables (word : String) : Int :=
  let w := (strToLower word).data
  if w.length ≤ 3 then 1
  else
    let vowels := ['a', 'e', 'i', 'o', 'u', 'y']
    let groups :=
      (w.foldl
        (fun (st : Int × Bool) c =>
          let isV := vowels.contains c
          (if isV && !st.2 then st.1 + 1 else st.1, isV))
        (0, false)).1
    let groups := if w.getLastD 'x' = 'e' then groups - 1 else groups
    max 1 groups

/-- `BaseAnalyzer.analyzeReadability` result. -/
structure Readability where
  score : ℚ
  avgWordsPerSentence : ℚ
  avgSyllablesPerWord : ℚ
deriving DecidableEq, Repr

/-- `BaseAnalyzer.analyzeReadability`: simplified Flesch Reading Ease,
clamped to `[0, 100]`. -/
def analyzeReadability (text : String) : Readability :=
  let sentences := sentencePieces text
  let words := wordRuns text
  let awps : ℚ :=
    if 0 < sentences.length then (words.length : ℚ) / (sentences.length : ℚ) else 0
  let totalSyllables : Int :=
    words.foldl (fun sum w => sum + countSyllables ⟨w⟩) 0
  let asw : ℚ :=
    if 0 < words.length then (totalSyllables : ℚ) / (words.length : ℚ) else 0
  let score : ℚ :=
    if 0 < sentences.length && 0 < words.length then
      206835/1000 - (1015/1000) * awps - (846/10) * asw
    else 0
  { score := max 0 (min 100 score),
    avgWordsPerSentence := awps,
    avgSyllablesPerWord := asw }

/-- `BaseAnalyzer.answersCommonQuestions`: conversational question patterns. -/
def answersCommonQuestions (content : String) : Bool :=
  let questionWords := ["what", "how", "why", "when", "where", "who"]
  let lower := strToLower content
  questionWords.any fun w =>
    strIncludes lower (w ++ " is") || strIncludes lower (w ++ " are") ||
    strIncludes lower (w ++ " to") || strIncludes lower (w ++ " can")

/-! ### Shared scoring helpers (`shared/src/utils/helpers.ts`, `constants.ts`) -/

/-- `DEFAULT_CATEGORY_WEIGHTS`: built from `AEO_CATEGORY_CONFIG`, so its keys
are the `AEOCategory` enum string values (snake_case). -/
def DEFAULT_CATEGORY_WEIGHTS : String → Option Int := fun key =>
  if key = "faq_schema" then some 15
  else if key = "schema_markup" then some 20
  else if key = "content_structure" then some 15
  else if key = "featured_snippets" then some 12
  else if key = "entity_optimization" then some 10
  else if key = "meta_tags" then some 8
  else if key = "semantic_html" then some 8
  else if key = "voice_search" then some 5
  else if key = "knowledge_graph" then some 4
  else if key = "technical_seo" then some 3
  else none

/-- `Object.values(DEFAULT_CATEGORY_WEIGHTS).reduce((sum, w) => sum + w, 0)`. -/
def totalDefaultWeight : Int := 15 + 20 + 15 + 12 + 10 + 8 + 8 + 5 + 4 + 3

/-- `DEFAULT_CATEGORY_WEIGHTS[category] || 1`: JS `||` falls back on
`undefined` (key absent) and on `0`. -/
def weightOr1 (key : String) : Int :=
  match DEFAULT_CATEGORY_WEIGHTS key with
  | some w => if w = 0 then 1 else w
  | none => 1

/-- `Object.entries(categoryScores)`: the camelCase field names of
`CategoryScores`, in declaration order. -/
def categoryScoreEntries (cs : CategoryScores) : List (String × ℚ) :=
  [("faqSchema", cs.faqSchema), ("schemaMarkup", cs.schemaMarkup),
   ("contentStructure", cs.contentStructure),
   ("featuredSnippets", cs.featuredSnippets),
   ("entityOptimization", cs.entityOptimization), ("metaTags", cs.metaTags),
   ("semanticHtml", cs.semanticHtml), ("voiceSearch", cs.voiceSearch),
   ("knowledgeGraph", cs.knowledgeGraph), ("technicalSeo", cs.technicalSeo)]

/-- `calculateOverallScore` from `shared/src/utils/helpers.ts`: note that it
looks the weight up under the camelCase entry key while the table is keyed by
the snake_case enum values. -/
def calculateOverallScore (categoryScores : CategoryScores) : Int :=
  let weightedSum : ℚ :=
    (categoryScoreEntries categoryScores).foldl
      (fun sum e => sum + e.2 * (weightOr1 e.1 : ℚ)) 0
  mathRound (weightedSum / (totalDefaultWeight : ℚ))

/-! ### `FAQSchemaAnalyzer` (`src/unnamed/part_003`) -/

def faqQuestionWords : List String :=
  ["what", "how", "why", "when", "where", "who", "which", "can", "is",
   "are", "do", "does"]

/-- `FAQSchemaAnalyzer.isGoodQuestion`. -/
def isGoodQuestion (question : String) : Bool :=
  if question = "" || question.data.length < 10 then false
  else
    (faqQuestionWords.any fun w => strIncludes (strToLower question) w) &&
      strEndsWith question "?"

/-- JS `s.split(/\s+/)` (no filtering): the word runs plus a leading/trailing
empty piece when the string starts/ends with whitespace; `""` gives `[""]`. -/
def jsSplitWs (s : String) : List String :=
  match s.data with
  | [] => [""]
  | c :: cs =>
    (if c.isWhitespace then [""] else [])
      ++ (wordRuns s).map (fun w => ⟨w⟩)
      ++ (if ((c :: cs).getLastD c).isWhitespace then [""] else [])

theorem jsSplitWsCount_eq (s : String) : jsSplitWsCount s = (jsSplitWs s).length := by
  unfold jsSplitWsCount jsSplitWs
  match h : s.data with
  | [] => simp
  | c :: cs =>
    simp only [List.length_append, List.length_map]
    split <;> split <;> simp <;> omega

/-- `FAQSchemaAnalyzer.isGoodAnswer`: `answer.split(/\s+/).length ∈ [20, 80]`. -/
def isGoodAnswer (answer : String) : Bool :=
  if answer = "" then false
  else decide (20 ≤ jsSplitWsCount answer) && decide (jsSplitWsCount answer ≤ 80)

/-- One loop step of `evaluateFAQQuality`: +3 for a good question,
+2 for a good answer. -/
def faqQualityStep (acc : Int) (entry : FAQEntry) : Int :=
  let acc := if isGoodQuestion entry.name then acc + 3 else acc
  if isGoodAnswer entry.acceptedAnswerText then acc + 2 else acc

/-- `FAQSchemaAnalyzer.evaluateFAQQuality`: base 70, +3 per good question,
+2 per good answer, capped at 100. -/
def evaluateFAQQuality (faqEntries : List FAQEntry) : Int :=
  min 100 (faqEntries.foldl faqQualityStep 70)

/-- `FAQSchemaAnalyzer.isQuestionHeading` (argument already lowercased). -/
def isQuestionHeading (heading : String) : Bool :=
  (faqQuestionWords.any fun w => strStartsWith heading w) &&
    strIncludes heading "?"

/-- Maximal run of characters satisfying `p`: its length and the rest. -/
def takeRun (p : Char → Bool) : List Char → Nat × List Char
  | [] => (0, [])
  | c :: cs =>
    if p c then
      let (n, rest) := takeRun p cs
      (n + 1, rest)
    else (0, c :: cs)

/-- Split a piece at its last `'?'`, provided at least one character precedes
it: returns the part through that `'?'` and the remainder. -/
def lastQSplit (s : List Char) : Option (List Char × List Char) :=
  match s.reverse.findIdx? (fun c => c = '?') with
  | none => none
  | some revIdx =>
    let k := s.length - 1 - revIdx
    if 1 ≤ k then some (s.take (k + 1), s.drop (k + 1)) else none

/-- Global greedy matches of a regex `pre.+\?` (as in
`findFAQIndicators`'s question patterns), with a fuel argument. -/
def greedyQMatchesAux (pre : List Char) : Nat → List Char → List (List Char)
  | 0, _ => []
  | _, [] => []
  | fuel + 1, s@(_ :: rest) =>
    if pre.isPrefixOf s then
      match lastQSplit (s.drop pre.length) with
      | some (matched, rest') =>
        (pre ++ matched) :: greedyQMatchesAux pre fuel rest'
      | none => greedyQMatchesAux pre fuel rest
    else greedyQMatchesAux pre fuel rest

def greedyQMatches (pre : String) (s : String) : List String :=
  (greedyQMatchesAux pre.data s.data.length s.data).map (fun m => ⟨m⟩)

/-- `FAQSchemaAnalyzer.findFAQIndicators`: FAQ-like headings, then up to three
matches of each conversational question pattern in the lowercased content. -/
def findFAQIndicators (data : ScrapedData) : List String :=
  let headingIndicators :=
    (data.headings.filter fun h =>
      let ht := strToLower h.text
      strIncludes ht "faq" || strIncludes ht "frequently asked" ||
        strIncludes ht "common questions" || isQuestionHeading ht).map
      (fun h => h.text)
  let content := strToLower data.content
  let patterns := ["what is ", "how to ", "why ", "when ", "where "]
  headingIndicators ++
    patterns.foldl (fun acc p => acc ++ (greedyQMatches p content).take 3) []

/-- The filter selecting FAQ-type schema blocks
(`schema.type === 'FAQPage' || (schema.data['@type'] &&
schema.data['@type'].includes('FAQPage'))`). -/
def faqSchemaFilter (schemas : List SchemaMarkup) : List SchemaMarkup :=
  schemas.filter fun schema =>
    schema.type = "FAQPage" ||
      (match schema.data.atType with
       | some t => t ≠ "" && strIncludes t "FAQPage"
       | none => false)

/-- The branch structure of `FAQSchemaAnalyzer.analyze` producing the raw
score, issues and (pre-`quick`) recommendations. -/
def faqCore (data : ScrapedData) :
    Int × List AnalyzerIssue × List AnalyzerRecommendation :=
  let faqSchemas := faqSchemaFilter data.schemas
  if faqSchemas.length = 0 then
      (0,
       [{ severity := .high, title := "Missing FAQ Schema",
          description := "No FAQ schema markup found on the page",
          impact := "Reduced visibility in voice search and featured snippets",
          fixable := true }],
       [{ priority := 1, title := "Add FAQ Schema Markup",
          description := "Generate and implement FAQ schema based on page content",
          estimatedImpact := 25, implementationTime := 30 }])
    else
      let validSchemas := faqSchemas.filter (fun s => s.isValid)
      match validSchemas with
      | [] =>
        (20,
         [{ severity := .high, title := "Invalid FAQ Schema",
            description := "FAQ schema markup contains errors",
            impact := "Schema may not be recognized by search engines",
            fixable := true }],
         [])
      | first :: _ =>
        let mainEntity := first.data.mainEntity
        if mainEntity.length = 0 then
          (30,
           [{ severity := .medium, title := "Empty FAQ Schema",
              description := "FAQ schema exists but contains no questions",
              impact := "No benefit from FAQ schema implementation",
              fixable := true }],
           [])
        else if mainEntity.length < 3 then
          (50,
           [{ severity := .medium, title := "Insufficient FAQ Content",
              description := "Only " ++ toString mainEntity.length ++
                " FAQ entries found. Recommended: 5-8 entries",
              impact := "Limited coverage for voice search queries",
              fixable := true }],
           [{ priority := 2, title := "Expand FAQ Content",
              description := "Add more relevant FAQ entries to improve coverage",
              estimatedImpact := 15, implementationTime := 20 }])
        else
          let q := evaluateFAQQuality mainEntity
          (q, [],
           if q < 80 then
             [{ priority := 3, title := "Optimize FAQ Content",
                description := "Improve FAQ answers for better voice search optimization",
                estimatedImpact := 10, implementationTime := 15 }]
           else [])

/-- `FAQSchemaAnalyzer.analyze`. -/
def faqAnalyze (data : ScrapedData) (quick : Bool) : AnalyzerResult :=
  let (score, issues, recommendations) := faqCore data
  let recommendations :=
    if !quick then
      let faqIndicators := findFAQIndicators data
      if faqIndicators.length > 0 && (faqSchemaFilter data.schemas).length = 0 then
        recommendations ++
          [{ priority := 1, title := "Convert Existing FAQ Content",
             description := "Found " ++ toString faqIndicators.length ++
               " potential FAQ sections that could be structured as schema",
             estimatedImpact := 20, implementationTime := 25 }]
      else recommendations
    else recommendations
  { score := min 100 score, issues := issues, recommendations := recommendations }

/-! ### `SemanticHTMLAnalyzer` and `VoiceSearchAnalyzer` (`src/unnamed/part_003`) -/

/-- `SemanticHTMLAnalyzer.hasSemanticStructure`. -/
def hasSemanticStructure (data : ScrapedData) : Bool :=
  data.headings.length > 0 && data.content.data.length > 300

/-- `SemanticHTMLAnalyzer.analyze`. -/
def semanticHtmlAnalyze (data : ScrapedData) (_quick : Bool) : AnalyzerResult :=
  let structured := hasSemanticStructure data
  { score := if structured then 60 else 40,
    issues :=
      if structured then []
      else
        [{ severity := .medium, title := "Poor Semantic HTML Structure",
           description := "Content lacks proper semantic HTML elements",
           impact := "Reduced accessibility and AI comprehension",
           fixable := true }],
    recommendations :=
      [{ priority := 2, title := "Improve Semantic HTML",
         description := "Use proper semantic elements like <article>, <section>, <nav>",
         estimatedImpact := 15, implementationTime := 30 }] }

/-- `VoiceSearchAnalyzer.analyze`. -/
def voiceSearchAnalyze (data : ScrapedData) (_quick : Bool) : AnalyzerResult :=
  let conversational := answersCommonQuestions data.content
  { score := if conversational then 70 else 30,
    issues :=
      if conversational then []
      else
        [{ severity := .medium, title := "Not Optimized for Voice Search",
           description := "Content lacks conversational, question-answering format",
           impact := "Reduced visibility in voice search results",
           fixable := true }],
    recommendations :=
      [{ priority := 3, title := "Optimize for Voice Search",
         description := "Add natural language answers to common questions",
         estimatedImpact := 12, implementationTime := 25 }] }

/-! ### `ContentStructureAnalyzer` -/

/-- Decimal rendering used for `number.toFixed(1)` on the non-negative values
the analyzers print (round half up to one decimal place). -/
def ratToFixed1 (q : ℚ) : String :=
  let n := mathRound (q * 10)
  toString (n / 10) ++ "." ++ toString (n % 10)

/-- `ContentStructureAnalyzer.analyzeHeadingStructure`. -/
def csHeadingPart (headings : List Heading) : Int × List AnalyzerIssue :=
  let validation := validateHeadingStructure headings
  if !validation.isValid then
    (30,
     [{ severity := .medium, title := "Poor Heading Structure",
        description := String.intercalate ", " validation.issues,
        impact := "Reduced content comprehension for AI systems",
        fixable := true }])
  else (80, [])

/-- `ContentStructureAnalyzer.analyzeContentReadability`. -/
def csReadabilityPart (content : String) : Int × List AnalyzerIssue :=
  let readability := analyzeReadability content
  if readability.score < 60 then
    (40,
     [{ severity := .medium, title := "Poor Content Readability",
        description := "Readability score: " ++ ratToFixed1 readability.score,
        impact := "Difficult for AI systems to understand and extract information",
        fixable := true }])
  else (80, [])

/-- `ContentStructureAnalyzer.analyzeContentStructure`. -/
def csLengthPart (content : String) : Int × List AnalyzerIssue :=
  let wordCount := countWords content
  if wordCount < 300 then
    (20,
     [{ severity := .high, title := "Insufficient Content Length",
        description := "Content has " ++ toString wordCount ++
          " words. Recommended: 300+ words",
        impact := "Limited information for AI systems to process",
        fixable := true }])
  else (70, [])

/-- `ContentStructureAnalyzer.analyze`. -/
def contentStructureAnalyze (data : ScrapedData) (quick : Bool) : AnalyzerResult :=
  { score := calculateScore
      [(40, (csHeadingPart data.headings).1),
       (30, (csReadabilityPart data.content).1),
       (30, (csLengthPart data.content).1)],
    issues := (csHeadingPart data.headings).2 ++
      (csReadabilityPart data.content).2 ++ (csLengthPart data.content).2,
    recommendations :=
      if !quick then
        [{ priority := 1, title := "Optimize Content Structure",
           description := "Restructure content with clear headings and concise paragraphs",
           estimatedImpact := 20, implementationTime := 45 }]
      else [] }

/-! ### `FeaturedSnippetsAnalyzer` -/

/-- `FeaturedSnippetsAnalyzer.analyze`. -/
def featuredSnippetsAnalyze (data : ScrapedData) (_quick : Bool) : AnalyzerResult :=
  let snippetCandidates := findSnippetCandidates data.content
  { score := if snippetCandidates.length > 0 then 60 else 20,
    issues :=
      if snippetCandidates.length = 0 then
        [{ severity := .medium, title := "No Featured Snippet Optimization",
           description := "Content not optimized for featured snippets",
           impact := "Missing opportunities for position zero rankings",
           fixable := true }]
      else [],
    recommendations :=
      [{ priority := 1, title := "Optimize for Featured Snippets",
         description := "Create 40-60 word answers to common questions",
         estimatedImpact := 25, implementationTime := 30 }] }

/-! ### `EntityOptimizationAnalyzer` -/

/-- A regex word character (`\w` / `\b` boundary test): `[A-Za-z0-9_]`. -/
def isWordChar (c : Char) : Bool :=
  c.isUpper || c.isLower || c.isDigit || c = '_'

/-- Match `/[A-Z][a-z]+ [A-Z][a-z]+/` anchored at the head of the list
(the character classes are disjoint from the following literal space, so
greedy maximal-munch matching is exact). -/
def personPatternAt (s : List Char) : Bool :=
  match s with
  | c :: rest =>
    c.isUpper &&
      (let (n, rest') := takeRun Char.isLower rest
       decide (1 ≤ n) &&
         match rest' with
         | ' ' :: d :: rest'' =>
           d.isUpper && decide (1 ≤ (takeRun Char.isLower rest'').1)
         | _ => false)
  | [] => false

/-- Match one suffix word of the alternation followed by a `\b`. -/
def suffixWordAt (suffixes : List String) (s : List Char) : Bool :=
  suffixes.any fun w =>
    w.data.isPrefixOf s &&
      (match s.drop w.data.length with
       | [] => true
       | c :: _ => !isWordChar c)

/-- After an initial capitalized word, match `(?:\s+[A-Z][a-z]+)*\s+(SUF)\b`;
`fuel` bounds the recursion (the consumed part is non-empty each step). -/
def capSeqTail (suffixes : List String) : Nat → List Char → Bool
  | 0, _ => false
  | fuel + 1, s =>
    let (wsn, rest) := takeRun Char.isWhitespace s
    decide (1 ≤ wsn) &&
      (suffixWordAt suffixes rest ||
        match rest with
        | c :: r =>
          c.isUpper &&
            (let (n, r') := takeRun Char.isLower r
             decide (1 ≤ n) && capSeqTail suffixes fuel r')
        | [] => false)

/-- Match `/\b[A-Z][a-z]+(?:\s+[A-Z][a-z]+)*\s+(SUF)\b/` at the head of the
list, `prev` being the character before it (boundary test). -/
def capSeqPatternAt (suffixes : List String) (prev : Option Char) (s : List Char) : Bool :=
  (match prev with
   | none => true
   | some c => !isWordChar c) &&
    match s with
    | c :: rest =>
      c.isUpper &&
        (let (n, rest') := takeRun Char.isLower rest
         decide (1 ≤ n) && capSeqTail suffixes s.length rest')
    | [] => false

/-- Scan all positions of the list, tracking the previous character. -/
def scanWithPrev (p : Option Char → List Char → Bool) : Option Char → List Char → Bool
  | prev, [] => p prev []
  | prev, s@(c :: t) => p prev s || scanWithPrev p (some c) t

/-- `EntityOptimizationAnalyzer.hasEntityMentions`: any of the three entity
regexes matches somewhere in the content. -/
def hasEntityMentions (content : String) : Bool :=
  scanWithPrev (fun _ s => personPatternAt s) none content.data ||
    scanWithPrev (capSeqPatternAt ["Inc", "Corp", "LLC", "Ltd"]) none content.data ||
    scanWithPrev (capSeqPatternAt ["University", "College", "School"]) none content.data

/-- `EntityOptimizationAnalyzer.analyze`. -/
def entityOptimizationAnalyze (data : ScrapedData) (_quick : Bool) : AnalyzerResult :=
  let mentions := hasEntityMentions data.content
  { score := if mentions then 50 else 30,
    issues :=
      if mentions then []
      else
        [{ severity := .medium, title := "Limited Entity Coverage",
           description := "Content lacks clear entity mentions and relationships",
           impact := "Reduced semantic understanding by AI systems",
           fixable := true }],
    recommendations :=
      [{ priority := 2, title := "Enhance Entity Coverage",
         description := "Add relevant entity mentions and semantic relationships",
         estimatedImpact := 15, implementationTime := 25 }] }

/-! ### `KnowledgeGraphAnalyzer` -/

/-- `KnowledgeGraphAnalyzer.hasAuthoritySignals`. -/
def hasAuthoritySignals (data : ScrapedData) : Bool :=
  data.links.any fun link =>
    ["wikipedia.org", "gov", "edu"].any fun d => strIncludes link.href d

/-- `KnowledgeGraphAnalyzer.analyze`. -/
def knowledgeGraphAnalyze (data : ScrapedData) (_quick : Bool) : AnalyzerResult :=
  let authority := hasAuthoritySignals data
  { score := if authority then 50 else 30,
    issues :=
      if authority then []
      else
        [{ severity := .low, title := "Limited Knowledge Graph Signals",
           description := "Content lacks clear authority and entity relationship signals",
           impact := "Reduced knowledge graph visibility",
           fixable := true }],
    recommendations :=
      [{ priority := 4, title := "Enhance Knowledge Graph Signals",
         description := "Add author profiles, entity relationships, and authority links",
         estimatedImpact := 10, implementationTime := 20 }] }

/-! ### `TechnicalSEOAnalyzer` -/

/-- `TechnicalSEOAnalyzer.analyze`: base 60, subtractive penalties. -/
def technicalSeoAnalyze (data : ScrapedData) (_quick : Bool) : AnalyzerResult :=
  let loadSlow := data.performance.loadTime > 3000
  let tooBig := data.performance.pageSize > 3000000
  let lcpBad :=
    match data.performance.coreWebVitals with
    | some cwv =>
      match cwv.lcp with
      | some v => v ≠ 0 && v > 2500
      | none => false
    | none => false
  { score := 60 - (if loadSlow then 20 else 0) - (if tooBig then 10 else 0)
      - (if lcpBad then 15 else 0),
    issues :=
      (if loadSlow then
        [{ severity := .high, title := "Slow Page Load Time",
           description := "Page loads in " ++ toString data.performance.loadTime ++
             "ms. Target: <3000ms",
           impact := "Poor user experience and search rankings",
           fixable := true }]
       else []) ++
      (if tooBig then
        [{ severity := .medium, title := "Large Page Size",
           description := "Page size: " ++
             ratToFixed1 ((data.performance.pageSize : ℚ) / 1048576) ++ "MB",
           impact := "Slower loading, especially on mobile",
           fixable := true }]
       else []) ++
      (if lcpBad then
        [{ severity := .medium, title := "Poor Largest Contentful Paint",
           description := "LCP: " ++
             toString ((data.performance.coreWebVitals.map
               (fun c => c.lcp.getD 0)).getD 0) ++ "ms. Target: <2500ms",
           impact := "Poor Core Web Vitals score",
           fixable := true }]
       else []),
    recommendations :=
      [{ priority := 2, title := "Optimize Technical Performance",
         description := "Improve page speed, Core Web Vitals, and mobile optimization",
         estimatedImpact := 20, implementationTime := 60 }] }

/-! ### `MetaTagsAnalyzer` -/

def IMPORTANT_META_TAGS_A : List String :=
  ["description", "keywords", "author", "viewport", "robots"]

def IMPORTANT_OG_TAGS : List String :=
  ["og:title", "og:description", "og:image", "og:url", "og:type"]

def IMPORTANT_TWITTER_TAGS : List String :=
  ["twitter:card", "twitter:title", "twitter:description", "twitter:image"]

/-- Whether a string is empty or whitespace only (`s.trim().length === 0`,
with `!s` also true for the empty string). -/
def isBlank (s : String) : Bool := s.data.all (fun c => c.isWhitespace)

/-- `MetaTagsAnalyzer.containsBrandName`. -/
def containsBrandName (title : String) : Bool :=
  ["|", "-", ":", "•"].any fun indicator => strIncludes title indicator

/-- `MetaTagsAnalyzer.hasCallToAction`. -/
def hasCallToAction (description : String) : Bool :=
  let ctaWords := ["learn", "discover", "find", "get", "download", "buy",
    "shop", "read", "explore", "try", "start", "join", "sign up", "contact"]
  ctaWords.any fun w => strIncludes (strToLower description) w

/-- `MetaTagsAnalyzer.hasDuplicateContent`. -/
def hasDuplicateContent (description : String) : Bool :=
  let genericPhrases := ["welcome to our website", "this is the homepage",
    "default description", "lorem ipsum"]
  genericPhrases.any fun p => strIncludes (strToLower description) p

/-- `MetaTagsAnalyzer.analyzeTitleTag`. -/
def analyzeTitleTag (title : String) : Int × List AnalyzerIssue :=
  if isBlank title then
    (0,
     [{ severity := .critical, title := "Missing Title Tag",
        description := "No title tag found on the page",
        impact := "Severely impacts search engine rankings and click-through rates",
        fixable := true }])
  else
    let titleLength := title.data.length
    let (lengthAdj, lengthIssues) : Int × List AnalyzerIssue :=
      if titleLength < 30 then
        (-15,
         [{ severity := .medium, title := "Title Too Short",
            description := "Title is " ++ toString titleLength ++
              " characters. Recommended: 50-60 characters",
            impact := "May not fully utilize search result space",
            fixable := true }])
      else if titleLength > 60 then
        (-10,
         [{ severity := .medium, title := "Title Too Long",
            description := "Title is " ++ toString titleLength ++
              " characters. Recommended: 50-60 characters",
            impact := "Title may be truncated in search results",
            fixable := true }])
      else (20, [])
    let words := jsSplitWs (strToLower title)
    let (dupAdj, dupIssues) : Int × List AnalyzerIssue :=
      if words.length > words.dedup.length then
        (-5,
         [{ severity := .low, title := "Duplicate Words in Title",
            description := "Title contains repeated words",
            impact := "Reduces title effectiveness",
            fixable := true }])
      else (0, [])
    let brandAdj : Int := if containsBrandName title then 10 else 0
    (max 0 (50 + lengthAdj + dupAdj + brandAdj), lengthIssues ++ dupIssues)

/-- `MetaTagsAnalyzer.analyzeMetaDescription`. -/
def analyzeMetaDescription (description : String) : Int × List AnalyzerIssue :=
  if isBlank description then
    (0,
     [{ severity := .high, title := "Missing Meta Description",
        description := "No meta description found",
        impact := "Search engines will generate description, reducing click-through rates",
        fixable := true }])
  else
    let descLength := description.data.length
    let (lengthAdj, lengthIssues) : Int × List AnalyzerIssue :=
      if descLength < 120 then
        (-15,
         [{ severity := .medium, title := "Meta Description Too Short",
            description := "Description is " ++ toString descLength ++
              " characters. Recommended: 150-160 characters",
            impact := "Not fully utilizing search result space",
            fixable := true }])
      else if descLength > 160 then
        (-10,
         [{ severity := .medium, title := "Meta Description Too Long",
            description := "Description is " ++ toString descLength ++
              " characters. Recommended: 150-160 characters",
            impact := "Description may be truncated in search results",
            fixable := true }])
      else (25, [])
    let (ctaAdj, ctaIssues) : Int × List AnalyzerIssue :=
      if hasCallToAction description then (15, [])
      else
        (0,
         [{ severity := .low, title := "No Call-to-Action in Description",
            description := "Meta description lacks compelling call-to-action",
            impact := "May reduce click-through rates",
            fixable := true }])
    let (dupAdj, dupIssues) : Int × List AnalyzerIssue :=
      if hasDuplicateContent description then
        (-10,
         [{ severity := .low, title := "Generic Meta Description",
            description := "Meta description appears to be generic or duplicated",
            impact := "Reduces uniqueness and effectiveness",
            fixable := true }])
      else (0, [])
    (max 0 (50 + lengthAdj + ctaAdj + dupAdj),
     lengthIssues ++ ctaIssues ++ dupIssues)

/-- The tag map built by `analyzeMetaTags`: JS `Map.set` keeps the last
`content` written for a key; a tag participates only if its `name` is truthy. -/
def metaTagMapGet (metaTags : List MetaTag) (key : String) : Option String :=
  metaTags.foldl
    (fun acc tag =>
      match tag.name with
      | some n => if n ≠ "" && strToLower n = key then some tag.content else acc
      | none => acc)
    none

def metaTagMapHas (metaTags : List MetaTag) (key : String) : Bool :=
  (metaTagMapGet metaTags key).isSome

/-- `MetaTagsAnalyzer.analyzeMetaTags`. -/
def analyzeMetaTags (metaTags : List MetaTag) : Int × List AnalyzerIssue :=
  let score : Int :=
    IMPORTANT_META_TAGS_A.foldl
      (fun s tag => if metaTagMapHas metaTags tag then s + 15 else s) 0
  let robotsIssues : List AnalyzerIssue :=
    match metaTagMapGet metaTags "robots" with
    | some content =>
      let robotsContent := strToLower content
      if strIncludes robotsContent "noindex" || strIncludes robotsContent "nofollow" then
        [{ severity := .medium, title := "Restrictive Robots Meta Tag",
           description := "Robots tag contains: " ++ robotsContent,
           impact := "May prevent search engine indexing",
           fixable := true }]
      else []
    | none =>
      [{ severity := .low, title := "Missing Robots Meta Tag",
         description := "No robots meta tag specified",
         impact := "Search engines use default behavior",
         fixable := true }]
  let viewportIssues : List AnalyzerIssue :=
    if !metaTagMapHas metaTags "viewport" then
      [{ severity := .medium, title := "Missing Viewport Meta Tag",
         description := "No viewport meta tag for mobile optimization",
         impact := "Poor mobile user experience",
         fixable := true }]
    else []
  (min 100 score, robotsIssues ++ viewportIssues)

/-- The OG tag map (`Map.set` keeps the last content; keys lowercased). -/
def ogMapGet (ogTags : List OpenGraphTag) (key : String) : Option String :=
  ogTags.foldl
    (fun acc tag => if strToLower tag.property = key then some tag.content else acc)
    none

/-- `MetaTagsAnalyzer.analyzeOpenGraphTags`. -/
def analyzeOpenGraphTags (ogTags : List OpenGraphTag) : Int × List AnalyzerIssue :=
  if ogTags.length = 0 then
    (0,
     [{ severity := .medium, title := "Missing Open Graph Tags",
        description := "No Open Graph tags found for social media sharing",
        impact := "Poor social media sharing appearance",
        fixable := true }])
  else
    let score : Int :=
      IMPORTANT_OG_TAGS.foldl
        (fun s tag => if (ogMapGet ogTags tag).isSome then s + 20 else s) 0
    let (imgAdj, imgIssues) : Int × List AnalyzerIssue :=
      match ogMapGet ogTags "og:image" with
      | some imageUrl =>
        if !jsIsValidUrl imageUrl then
          (-10,
           [{ severity := .low, title := "Invalid OG Image URL",
              description := "Open Graph image URL is not valid",
              impact := "Image may not display in social shares",
              fixable := true }])
        else (0, [])
      | none => (0, [])
    (min 100 (score + imgAdj), imgIssues)

/-- The Twitter tag map: entries of `metaTags` whose truthy `name` starts
with `twitter:`, keyed by the lowercased name. -/
def twitterTags (metaTags : List MetaTag) : List MetaTag :=
  metaTags.filter fun tag =>
    match tag.name with
    | some n => n ≠ "" && strStartsWith n "twitter:"
    | none => false

def twitterMapHas (metaTags : List MetaTag) (key : String) : Bool :=
  (twitterTags metaTags).any fun tag =>
    match tag.name with
    | some n => strToLower n = key
    | none => false

/-- `MetaTagsAnalyzer.analyzeTwitterTags`. -/
def analyzeTwitterTags (metaTags : List MetaTag) : Int × List AnalyzerIssue :=
  if (twitterTags metaTags).length = 0 then
    (0,
     [{ severity := .low, title := "Missing Twitter Card Tags",
        description := "No Twitter Card tags found",
        impact := "Suboptimal Twitter sharing appearance",
        fixable := true }])
  else
    let score : Int :=
      IMPORTANT_TWITTER_TAGS.foldl
        (fun s tag => if twitterMapHas metaTags tag then s + 25 else s) 0
    (min 100 score, [])

/-- `MetaTagsAnalyzer.addRecommendations` (only when not quick). -/
def metaTagsRecommendations (data : ScrapedData) : List AnalyzerRecommendation :=
  (if data.title = "" || data.title.data.length < 50 || data.title.data.length > 60 then
    [{ priority := 1, title := "Optimize Title Tag",
       description := "Create compelling 50-60 character title with target keywords",
       estimatedImpact := 25, implementationTime := 10 }]
   else []) ++
  (if data.metaDescription = "" || data.metaDescription.data.length < 150 ||
      data.metaDescription.data.length > 160 then
    [{ priority := 1, title := "Optimize Meta Description",
       description := "Write compelling 150-160 character description with call-to-action",
       estimatedImpact := 20, implementationTime := 15 }]
   else []) ++
  (if data.openGraphTags.length < 4 then
    [{ priority := 2, title := "Add Complete Open Graph Tags",
       description := "Implement full set of OG tags for social media optimization",
       estimatedImpact := 15, implementationTime := 20 }]
   else []) ++
  (if !(data.metaTags.any fun tag =>
        match tag.name with
        | some n => n ≠ "" && strStartsWith n "twitter:"
        | none => false) then
    [{ priority := 3, title := "Add Twitter Card Tags",
       description := "Implement Twitter Card markup for better Twitter sharing",
       estimatedImpact := 10, implementationTime := 15 }]
   else [])

/-- `MetaTagsAnalyzer.analyze`. -/
def metaTagsAnalyze (data : ScrapedData) (quick : Bool) : AnalyzerResult :=
  { score := min 100 (calculateScore
      [(30, (analyzeTitleTag data.title).1),
       (25, (analyzeMetaDescription data.metaDescription).1),
       (20, (analyzeMetaTags data.metaTags).1),
       (15, (analyzeOpenGraphTags data.openGraphTags).1),
       (10, (analyzeTwitterTags data.metaTags).1)]),
    issues := (analyzeTitleTag data.title).2 ++
      (analyzeMetaDescription data.metaDescription).2 ++
      (analyzeMetaTags data.metaTags).2 ++
      (analyzeOpenGraphTags data.openGraphTags).2 ++
      (analyzeTwitterTags data.metaTags).2,
    recommendations := if !quick then metaTagsRecommendations data else [] }

/-! ### `SchemaMarkupAnalyzer` (`src/server/src/services/scraper/WebScraper.ts`,
second document in the file, lines 476–881) -/

def IMPORTANT_SCHEMA_TYPES : List String :=
  ["Article", "BlogPosting", "Product", "LocalBusiness", "Organization",
   "Person", "WebSite", "WebPage", "BreadcrumbList", "HowTo", "Recipe",
   "Event"]

/-- `SchemaMarkupAnalyzer.evaluateArticleSchema`. -/
def evaluateArticleSchema (d : SchemaData) : Int :=
  (if d.truthy "headline" then 3 else 0) +
  (if d.truthy "author" then 3 else 0) +
  (if d.truthy "datePublished" then 3 else 0) +
  (if d.truthy "image" then 2 else 0) +
  (if d.truthy "publisher" then 2 else 0) +
  (if d.truthy "description" then 2 else 0) +
  (if d.truthy "mainEntityOfPage" then 2 else 0) +
  (if d.truthy "dateModified" then 1 else 0) +
  (if d.truthy "wordCount" then 1 else 0) +
  (if d.truthy "articleSection" then 1 else 0)

/-- `SchemaMarkupAnalyzer.evaluateOrganizationSchema`. -/
def evaluateOrganizationSchema (d : SchemaData) : Int :=
  (if d.truthy "name" then 4 else 0) +
  (if d.truthy "url" then 3 else 0) +
  (if d.truthy "logo" then 3 else 0) +
  (if d.truthy "address" then 3 else 0) +
  (if d.truthy "telephone" then 2 else 0) +
  (if d.truthy "email" then 2 else 0) +
  (if d.truthy "sameAs" then 2 else 0) +
  (if d.truthy "description" then 1 else 0)

/-- `SchemaMarkupAnalyzer.evaluateLocalBusinessSchema`. -/
def evaluateLocalBusinessSchema (d : SchemaData) : Int :=
  (if d.truthy "name" then 3 else 0) +
  (if d.truthy "address" then 4 else 0) +
  (if d.truthy "telephone" then 3 else 0) +
  (if d.truthy "openingHours" then 3 else 0) +
  (if d.truthy "geo" then 3 else 0) +
  (if d.truthy "url" then 2 else 0) +
  (if d.truthy "priceRange" then 1 else 0) +
  (if d.truthy "image" then 1 else 0)

/-- `SchemaMarkupAnalyzer.evaluateProductSchema`. -/
def evaluateProductSchema (d : SchemaData) : Int :=
  (if d.truthy "name" then 4 else 0) +
  (if d.truthy "description" then 3 else 0) +
  (if d.truthy "image" then 3 else 0) +
  (if d.truthy "offers" then 4 else 0) +
  (if d.truthy "brand" then 2 else 0) +
  (if d.truthy "sku" then 2 else 0) +
  (if d.truthy "aggregateRating" then 2 else 0)

/-- `SchemaMarkupAnalyzer.evaluateGenericSchema` (`Object.keys(data).length`
is the number of own keys). -/
def evaluateGenericSchema (d : SchemaData) : Int :=
  min 10 (d.props.length : Int) +
  (if d.truthy "name" then 2 else 0) +
  (if d.truthy "description" then 2 else 0) +
  (if d.truthy "url" then 1 else 0) +
  (if d.truthy "image" then 1 else 0)

/-- The per-schema completeness score: the `switch (schema.type)` of
`evaluateSchemaCompleteness`'s loop body. -/
def schemaCompletenessOf (schema : SchemaMarkup) : Int :=
  if schema.type = "Article" || schema.type = "BlogPosting" then
    evaluateArticleSchema schema.data
  else if schema.type = "Organization" then
    evaluateOrganizationSchema schema.data
  else if schema.type = "LocalBusiness" then
    evaluateLocalBusinessSchema schema.data
  else if schema.type = "Product" then
    evaluateProductSchema schema.data
  else evaluateGenericSchema schema.data

/-- `SchemaMarkupAnalyzer.evaluateSchemaCompleteness`:
`Math.min(20, Σ per-schema score / schemas.length)`.  The division is a JS
float division with no rounding; with an empty list the code would divide by
zero (unreachable: the caller guards on a non-empty list). -/
def evaluateSchemaCompleteness (schemas : List SchemaMarkup) : ℚ :=
  min 20 (((schemas.map schemaCompletenessOf).sum : ℚ) / (schemas.length : ℚ))

/-- `SchemaMarkupAnalyzer.calculateSchemaScore`: base 30, +10 per distinct
valid type capped at 30, +20 for an important type, plus the (possibly
fractional) completeness term, capped at 100. -/
def calculateSchemaScore (schemas : List SchemaMarkup) : ℚ :=
  let varietyBase : Int :=
    30 + min 30 (((schemas.map (fun s => s.type)).dedup.length : Int) * 10)
  let importantBase : Int :=
    varietyBase +
      (if schemas.any (fun s => IMPORTANT_SCHEMA_TYPES.contains s.type) then 20
       else 0)
  min 100 ((importantBase : ℚ) + evaluateSchemaCompleteness schemas)

/-- `SchemaMarkupAnalyzer.isArticleContent` (receives the lowercased
content). -/
def isArticleContent (content : String) (headings : List Heading) : Bool :=
  (["published", "author", "article", "blog", "post", "written by",
    "published on", "updated"].any fun ind => strIncludes content ind) &&
    decide (headings.length ≥ 3) && decide (countWords content ≥ 300)

/-- `SchemaMarkupAnalyzer.hasOrganizationInfo`. -/
def hasOrganizationInfo (data : ScrapedData) : Bool :=
  ["company", "corporation", "organization", "business", "founded",
   "headquarters", "contact us", "about us"].any fun ind =>
    strIncludes (strToLower data.content) ind

/-- `SchemaMarkupAnalyzer.hasBreadcrumbs`. -/
def hasBreadcrumbs (data : ScrapedData) : Bool :=
  (["home >", "home /", "breadcrumb", "navigation"].any fun ind =>
    strIncludes (strToLower data.content) ind) ||
    data.links.any fun link =>
      strIncludes link.text ">" || strIncludes link.text "/"

/-- Scan every suffix of a character list with a predicate. -/
def scanSuffixes (p : List Char → Bool) : List Char → Bool
  | [] => p []
  | s@(_ :: t) => p s || scanSuffixes p t

/-- One alternative of the step-heading regex: `step \d+` somewhere. -/
def stepNumAt (s : List Char) : Bool :=
  "step ".data.isPrefixOf s &&
    (match s.drop 5 with
     | c :: _ => c.isDigit
     | [] => false)

/-- Another alternative: `^\d+\.` (one or more digits then a dot at the
start). -/
def startsDigitsDot (s : List Char) : Bool :=
  let (n, rest) := takeRun Char.isDigit s
  decide (1 ≤ n) &&
    (match rest with
     | '.' :: _ => true
     | _ => false)

/-- The test `/step \d+|^\d+\.|first|second|third|next|finally/i` applied to
a heading text. -/
def stepHeadingTest (text : String) : Bool :=
  let t := strToLower text
  scanSuffixes stepNumAt t.data || startsDigitsDot t.data ||
    strIncludes t "first" || strIncludes t "second" || strIncludes t "third" ||
    strIncludes t "next" || strIncludes t "finally"

/-- `SchemaMarkupAnalyzer.isHowToContent` (receives the lowercased content,
and lowercases again before the indicator test as the source does). -/
def isHowToContent (content : String) (headings : List Heading) : Bool :=
  (["how to", "step", "steps", "tutorial", "guide", "instructions", "method",
    "process"].any fun ind => strIncludes (strToLower content) ind) &&
    headings.any fun h => stepHeadingTest h.text

/-- `SchemaMarkupAnalyzer.isLocalBusiness`. -/
def isLocalBusiness (content : String) : Bool :=
  ["address", "phone", "hours", "location", "visit us", "directions", "map",
   "contact", "call us"].any fun ind => strIncludes (strToLower content) ind

/-- `SchemaMarkupAnalyzer.findMissingSchemas` (existing types are those of
the valid schemas passed in). -/
def findMissingSchemas (existingSchemas : List SchemaMarkup)
    (data : ScrapedData) : List String :=
  let existingTypes := existingSchemas.map (fun s => s.type)
  let content := strToLower data.content
  (if !existingTypes.contains "Article" && !existingTypes.contains "BlogPosting" &&
      isArticleContent content data.headings then ["Article"] else []) ++
  (if !existingTypes.contains "Organization" && hasOrganizationInfo data then
    ["Organization"] else []) ++
  (if !existingTypes.contains "WebSite" then ["WebSite"] else []) ++
  (if !existingTypes.contains "BreadcrumbList" && hasBreadcrumbs data then
    ["BreadcrumbList"] else []) ++
  (if !existingTypes.contains "HowTo" && isHowToContent content data.headings then
    ["HowTo"] else []) ++
  (if !existingTypes.contains "LocalBusiness" && isLocalBusiness content then
    ["LocalBusiness"] else [])

/-- `SchemaMarkupAnalyzer.findMissingProperties`. -/
def findMissingProperties (schema : SchemaMarkup) : List String :=
  if schema.type = "Article" || schema.type = "BlogPosting" then
    (if !schema.data.truthy "headline" then ["headline"] else []) ++
    (if !schema.data.truthy "author" then ["author"] else []) ++
    (if !schema.data.truthy "datePublished" then ["datePublished"] else []) ++
    (if !schema.data.truthy "image" then ["image"] else [])
  else if schema.type = "Organization" then
    (if !schema.data.truthy "name" then ["name"] else []) ++
    (if !schema.data.truthy "url" then ["url"] else []) ++
    (if !schema.data.truthy "logo" then ["logo"] else [])
  else if schema.type = "LocalBusiness" then
    (if !schema.data.truthy "address" then ["address"] else []) ++
    (if !schema.data.truthy "telephone" then ["telephone"] else []) ++
    (if !schema.data.truthy "openingHours" then ["openingHours"] else [])
  else []

/-- `SchemaMarkupAnalyzer.checkSchemaCompleteness`: a LOW issue per schema
with missing recommended properties. -/
def checkSchemaCompleteness (schemas : List SchemaMarkup) : List AnalyzerIssue :=
  schemas.foldl
    (fun issues schema =>
      let missingProps := findMissingProperties schema
      if missingProps.length > 0 then
        issues ++
          [{ severity := .low,
             title := "Incomplete " ++ schema.type ++ " Schema",
             description := "Missing recommended properties: " ++
               String.intercalate ", " missingProps,
             impact := "Reduced schema effectiveness",
             fixable := true }]
      else issues)
    []

/-- `SchemaMarkupAnalyzer.analyze`.  The raw score before the final
`Math.min(100, ·)`: 10 with a high issue when every block is invalid,
otherwise `calculateSchemaScore` over the valid blocks. -/
def schemaMarkupRawScore (validSchemas : List SchemaMarkup) : ℚ :=
  if validSchemas.length = 0 then 10 else calculateSchemaScore validSchemas

/-- `SchemaMarkupAnalyzer.analyze` (WebScraper.ts lines 489–541): early
return with score 0 and a critical issue when no schema blocks exist;
otherwise the raw score capped at 100, a high issue when all blocks are
invalid, a medium issue and a priority-2 recommendation when some block is
invalid, a priority-1 recommendation for missing schema types, and per-schema
completeness issues unless `quick`. -/
def schemaMarkupAnalyze (data : ScrapedData) (quick : Bool) : AnalyzerResult :=
  if data.schemas.length = 0 then
    { score := 0,
      issues :=
        [{ severity := .critical, title := "No Schema Markup Found",
           description := "No structured data markup detected on the page",
           impact := "Reduced visibility in search results and AI platforms",
           fixable := true }],
      recommendations :=
        [{ priority := 1, title := "Implement Basic Schema Markup",
           description := "Add appropriate schema types based on content type",
           estimatedImpact := 30, implementationTime := 45 }] }
  else
    let validSchemas := data.schemas.filter (fun s => s.isValid)
    let invalidSchemas := data.schemas.filter (fun s => !s.isValid)
    let missingSchemas := findMissingSchemas validSchemas data
    { score := min 100 (schemaMarkupRawScore validSchemas),
      issues :=
        (if validSchemas.length = 0 then
          [{ severity := .high, title := "Invalid Schema Markup",
             description := "All schema markup contains errors and may not be recognized",
             impact := "Schema benefits not realized due to validation errors",
             fixable := true }]
         else []) ++
        (if invalidSchemas.length > 0 then
          [{ severity := .medium,
             title := toString invalidSchemas.length ++ " Invalid Schema(s)",
             description := "Some schema markup contains validation errors",
             impact := "Partial loss of structured data benefits",
             fixable := true }]
         else []) ++
        (if !quick then checkSchemaCompleteness validSchemas else []),
      recommendations :=
        (if invalidSchemas.length > 0 then
          [{ priority := 2, title := "Fix Schema Validation Errors",
             description := "Correct errors in existing schema markup",
             estimatedImpact := 15, implementationTime := 20 }]
         else []) ++
        (if missingSchemas.length > 0 then
          [{ priority := 1, title := "Add Missing Schema Types",
             description := "Consider adding: " ++
               String.intercalate ", " missingSchemas,
             estimatedImpact := 20, implementationTime := 30 }]
         else []) }

/-! ### The orchestrator (`AEOAnalyzer.ts`) -/

/-- The analyzer registered for each category in the `AEOAnalyzer`
constructor's map. -/
def categoryAnalyzer : AEOCategory → (ScrapedData → Bool → AnalyzerResult)
  | .faq_schema => faqAnalyze
  | .schema_markup => schemaMarkupAnalyze
  | .content_structure => contentStructureAnalyze
  | .featured_snippets => featuredSnippetsAnalyze
  | .entity_optimization => entityOptimizationAnalyze
  | .meta_tags => metaTagsAnalyze
  | .semantic_html => semanticHtmlAnalyze
  | .voice_search => voiceSearchAnalyze
  | .knowledge_graph => knowledgeGraphAnalyze
  | .technical_seo => technicalSeoAnalyze

/-- A registry entry: `none` models `analyzers.get(category)` returning
`undefined`; `some f` is a registered analyzer, where `f` returning `none`
models `analyzer.analyze` throwing. -/
def Registry := AEOCategory → Option (ScrapedData → Bool → Option AnalyzerResult)

/-- The real registry: every category registered, no analyzer throws. -/
def realRegistry : Registry := fun c => some (fun d q => some (categoryAnalyzer c d q))

/-- The real registry with a failure injected into exactly one analyzer. -/
def registryFailingAt (bad : AEOCategory) : Registry := fun c =>
  if c = bad then some (fun _ _ => none) else realRegistry c

/-- The real registry with failures injected per `fail`. -/
def registryWithFailures (fail : AEOCategory → Bool) : Registry := fun c =>
  if fail c then some (fun _ _ => none) else realRegistry c

/-- The partial score map assembled during the per-category loop, keyed (via
the injective `getCategoryScoreKey` mapping) by category. -/
def PartialScores := AEOCategory → Option ℚ

def PartialScores.empty : PartialScores := fun _ => none

def PartialScores.set (m : PartialScores) (c : AEOCategory) (v : ℚ) : PartialScores :=
  fun c' => if c' = c then some v else m c'

/-- `AEOAnalyzer.fillMissingScores` (`?? 0` per field). -/
def fillMissingScores (m : PartialScores) : CategoryScores :=
  { faqSchema := (m .faq_schema).getD 0,
    schemaMarkup := (m .schema_markup).getD 0,
    contentStructure := (m .content_structure).getD 0,
    featuredSnippets := (m .featured_snippets).getD 0,
    entityOptimization := (m .entity_optimization).getD 0,
    metaTags := (m .meta_tags).getD 0,
    semanticHtml := (m .semantic_html).getD 0,
    voiceSearch := (m .voice_search).getD 0,
    knowledgeGraph := (m .knowledge_graph).getD 0,
    technicalSeo := (m .technical_seo).getD 0 }

/-- Read a category's score back out of `CategoryScores` (the inverse view of
`getCategoryScoreKey`). -/
def CategoryScores.get (cs : CategoryScores) : AEOCategory → ℚ
  | .faq_schema => cs.faqSchema
  | .schema_markup => cs.schemaMarkup
  | .content_structure => cs.contentStructure
  | .featured_snippets => cs.featuredSnippets
  | .entity_optimization => cs.entityOptimization
  | .meta_tags => cs.metaTags
  | .semantic_html => cs.semanticHtml
  | .voice_search => cs.voiceSearch
  | .knowledge_graph => cs.knowledgeGraph
  | .technical_seo => cs.technicalSeo

/-- `AEOAnalyzer.getSeverityPriority`. -/
def getSeverityPriority : Severity → Int
  | .critical => 1
  | .high => 2
  | .medium => 3
  | .low => 4

/-- Accumulator of the orchestrator's per-category loop. -/
structure CollectState where
  scores : PartialScores
  issues : List CategoryIssue
  recommendations : List CategoryRecommendation

/-- One iteration of the orchestrator's per-category loop: missing analyzer →
skip; analyzer throws → score 0, nothing collected; success → store score,
append category-tagged issues and (if requested) recommendations. -/
def collectCategory (registry : Registry) (data : ScrapedData)
    (options : AnalysisOptions) (st : CollectState) (category : AEOCategory) :
    CollectState :=
  match registry category with
  | none => st
  | some f =>
    match f data options.quick with
    | none => { st with scores := st.scores.set category 0 }
    | some result =>
      { scores := st.scores.set category result.score,
        issues := st.issues ++
          result.issues.map (fun i => { i with category := category }),
        recommendations :=
          if options.includeRecommendations then
            st.recommendations ++
              result.recommendations.map (fun r => { r with category := category })
          else st.recommendations }

/-- The whole per-category loop. -/
def collectAll (registry : Registry) (data : ScrapedData)
    (options : AnalysisOptions) : CollectState :=
  (options.categories.getD allCategories).foldl
    (collectCategory registry data options)
    { scores := PartialScores.empty, issues := [], recommendations := [] }

/-- Comparator used for `issues.sort((a, b) => pri(a) - pri(b))`. -/
def issueLE (a b : CategoryIssue) : Bool :=
  getSeverityPriority a.severity ≤ getSeverityPriority b.severity

/-- Comparator used for `recommendations.sort((a, b) => a.priority - b.priority)`. -/
def recLE (a b : CategoryRecommendation) : Bool := a.priority ≤ b.priority

/-- `AEOAnalyzer.analyzeWebpage` (the orchestrator), parameterized by the
registry so that per-analyzer failure and missing registration can be
expressed.  JS `Array.prototype.sort` is a stable sort, modelled by
`List.mergeSort`. -/
def analyzeWebpage (registry : Registry) (scrapedData : ScrapedData)
    (options : AnalysisOptions) : AnalysisResult :=
  let st := collectAll registry scrapedData options
  let fullCategoryScores := fillMissingScores st.scores
  let overallScore := calculateOverallScore fullCategoryScores
  { overallScore := overallScore,
    categoryScores := fullCategoryScores,
    issues := st.issues.mergeSort issueLE,
    recommendations := st.recommendations.mergeSort recLE,
    status := .completed }

/-- `AEOAnalyzer.getCategorySummary` return value. -/
structure CategorySummary where
  score : ℚ
  severity : Severity
  issues : List CategoryIssue
  recommendations : List CategoryRecommendation
deriving DecidableEq, Repr

/-- `AEOAnalyzer.getCategorySummary`: throws (`Except.error`) when the
category has no registered analyzer; also propagates an analyzer failure. -/
def getCategorySummary (registry : Registry) (scrapedData : ScrapedData)
    (category : AEOCategory) : Except String CategorySummary :=
  match registry category with
  | none => .error ("No analyzer found for category: " ++ categoryValue category)
  | some f =>
    match f scrapedData false with
    | none => .error "analyzer failure"
    | some result =>
      .ok { score := result.score,
            severity := getSeverityFromScore result.score,
            issues := result.issues.map (fun i => { i with category := category }),
            recommendations :=
              result.recommendations.map (fun r => { r with category := category }) }

/-! ### Spec-side definitions (for refinement comparisons) -/

/-- The weighting table as the spec states it, keyed by category. -/
def specCategoryWeight : AEOCategory → Int
  | .faq_schema => 15
  | .schema_markup => 20
  | .content_structure => 15
  | .featured_snippets => 12
  | .entity_optimization => 10
  | .meta_tags => 8
  | .semantic_html => 8
  | .voice_search => 5
  | .knowledge_graph => 4
  | .technical_seo => 3

/-- The overall score as the claim states it:
`round(Σ weight_c·score_c / Σ weight_c)` over the 10 categories with the
fixed weighting table. -/
def specOverallScore (cs : CategoryScores) : Int :=
  let weightedSum : ℚ :=
    allCategories.foldl
      (fun sum c => sum + (specCategoryWeight c : ℚ) * cs.get c) 0
  let totalWeight : Int :=
    allCategories.foldl (fun sum c => sum + specCategoryWeight c) 0
  mathRound (weightedSum / (totalWeight : ℚ))

/-! ### Generic lemmas -/

theorem mathRound_int_div (n d : Int) (hd : 0 < d) :
    mathRound ((n : ℚ) / (d : ℚ)) = (2 * n + d) / (2 * d) := by
  have htn : ((d.toNat : ℕ) : ℤ) = d := Int.toNat_of_nonneg hd.le
  have hcast : ((d.toNat : ℕ) : ℚ) = (d : ℚ) := by
    exact_mod_cast congrArg (fun z : ℤ => (z : ℚ)) htn
  rw [← hcast, mathRound_intCast_div n d.toNat (by omega), htn]

/-- `Math.round q = n` iff `q` lies in `[n - 1/2, n + 1/2)`. -/
theorem mathRound_eq_iff {q : ℚ} {n : ℤ} :
    mathRound q = n ↔ (n : ℚ) - 1/2 ≤ q ∧ q < (n : ℚ) + 1/2 := by
  rw [mathRound_eq_floor, Int.floor_eq_iff]
  constructor
  · rintro ⟨h1, h2⟩
    constructor <;> [linarith; (push_cast at h2 ⊢; linarith)]
  · rintro ⟨h1, h2⟩
    constructor <;> [linarith; (push_cast; linarith)]

/-- Stability of `mergeSort` expressed through filters: if all elements
selected by `p` are mutually `le`, sorting does not reorder them. -/
theorem filter_mergeSort_eq {α} (le : α → α → Bool)
    (trans : ∀ (a b c : α), le a b → le b c → le a c)
    (total : ∀ (a b : α), le a b || le b a)
    (p : α → Bool) (hp : ∀ a b, p a = true → p b = true → le a b = true)
    (l : List α) : (l.mergeSort le).filter p = l.filter p := by
  have hpw : (l.filter p).Pairwise (fun a b => le a b = true) := by
    apply List.pairwise_of_forall_mem_list
    intro a ha b hb
    exact hp a b (List.of_mem_filter ha) (List.of_mem_filter hb)
  have hsub : List.Sublist (l.filter p) (l.mergeSort le) :=
    List.sublist_mergeSort trans total hpw (List.filter_sublist l)
  have hsub2 : List.Sublist (l.filter p) ((l.mergeSort le).filter p) := by
    have := hsub.filter p
    simpa using this
  have hperm : List.Perm ((l.mergeSort le).filter p) (l.filter p) :=
    (List.mergeSort_perm l le).filter p
  exact (hsub2.eq_of_length hperm.length_eq.symm).symm

theorem fillMissingScores_get (m : PartialScores) (c : AEOCategory) :
    (fillMissingScores m).get c = (m c).getD 0 := by
  cases c <;> rfl

/-! ### Claim C1 -/

/-- A synthetic `CategoryScores` with every category at the same value. -/
def allScores (v : ℚ) : CategoryScores := ⟨v, v, v, v, v, v, v, v, v, v⟩

/-- C1: the claim says `overallScore = round(Σ weight_c·score_c / Σ weight_c)`
with the fixed table, and in particular all-100 category scores give overall
100.  The code's `calculateOverallScore` looks weights up under the camelCase
`CategoryScores` keys while `DEFAULT_CATEGORY_WEIGHTS` is keyed by the
snake_case enum values, so every lookup falls back to `|| 1` while the
denominator stays the true total 100: all-100 scores yield 10, not the 100
the claim (and the spec's weighted mean) requires.  All-zero still yields 0. -/
theorem overallScore_weight_key_mismatch :
    (∀ (registry : Registry) (data : ScrapedData) (options : AnalysisOptions),
      (analyzeWebpage registry data options).overallScore =
        calculateOverallScore
          (fillMissingScores (collectAll registry data options).scores)) ∧
    calculateOverallScore (allScores 100) = 10 ∧
    specOverallScore (allScores 100) = 100 ∧
    calculateOverallScore (allScores 100) ≠ specOverallScore (allScores 100) ∧
    calculateOverallScore (allScores 0) = 0 := by
  have htot : (totalDefaultWeight : Int) = 100 := by decide
  have hw : weightOr1 "faqSchema" = 1 ∧ weightOr1 "schemaMarkup" = 1 ∧
      weightOr1 "contentStructure" = 1 ∧ weightOr1 "featuredSnippets" = 1 ∧
      weightOr1 "entityOptimization" = 1 ∧ weightOr1 "metaTags" = 1 ∧
      weightOr1 "semanticHtml" = 1 ∧ weightOr1 "voiceSearch" = 1 ∧
      weightOr1 "knowledgeGraph" = 1 ∧ weightOr1 "technicalSeo" = 1 := by
    decide
  obtain ⟨w1, w2, w3, w4, w5, w6, w7, w8, w9, w10⟩ := hw
  have h100 : calculateOverallScore (allScores 100) = 10 := by
    show mathRound _ = 10
    have hfold : ((categoryScoreEntries (allScores 100)).foldl
        (fun sum e => sum + e.2 * (weightOr1 e.1 : ℚ)) 0) = (1000 : ℚ) := by
      simp only [categoryScoreEntries, allScores, List.foldl,
        w1, w2, w3, w4, w5, w6, w7, w8, w9, w10]
      norm_num
    rw [hfold, htot, mathRound_eq_iff]
    norm_num
  have hspec : specOverallScore (allScores 100) = 100 := by
    show mathRound _ = 100
    have h1 : (allCategories.foldl
        (fun sum c => sum + (specCategoryWeight c : ℚ) * (allScores 100).get c) 0) =
        (10000 : ℚ) := by
      simp only [allCategories, specCategoryWeight, allScores,
        CategoryScores.get, List.foldl]
      norm_num
    have h2 : (allCategories.foldl (fun sum c => sum + specCategoryWeight c) 0) =
        (100 : Int) := by decide
    rw [h1, h2, mathRound_eq_iff]
    norm_num
  have h0 : calculateOverallScore (allScores 0) = 0 := by
    show mathRound _ = 0
    have hfold : ((categoryScoreEntries (allScores 0)).foldl
        (fun sum e => sum + e.2 * (weightOr1 e.1 : ℚ)) 0) = (0 : ℚ) := by
      simp only [categoryScoreEntries, allScores, List.foldl,
        w1, w2, w3, w4, w5, w6, w7, w8, w9, w10]
      norm_num
    rw [hfold, htot, mathRound_eq_iff]
    norm_num
  exact ⟨fun _ _ _ => rfl, h100, hspec, by omega, h0⟩

/-! ### Claim C3 -/

/-- C3 (amended): the orchestrator performs no upfront document validation
and never surfaces a hard failure: for every registry, document model and
options — including documents with a missing or malformed `url` — it returns
an `AnalysisResult` with status `completed`. -/
theorem orchestrator_never_rejects_input (registry : Registry)
    (data : ScrapedData) (options : AnalysisOptions) :
    (analyzeWebpage registry data options).status = .completed := rfl

/-- A document model that fails the repository's own validity notions:
its required `url` is the empty string (not a well-formed absolute URL). -/
def invalidDoc : ScrapedData :=
  { url := "", title := "", metaDescription := "", headings := [],
    content := "", schemas := [], metaTags := [], openGraphTags := [],
    images := [], links := [],
    performance := { loadTime := 0, pageSize := 0 } }

/-- C3 counterexample: on a document with an empty (malformed) `url`, the
orchestrator does not fail fast with a validation error; the analyzers run
(the semantic-HTML analyzer scores this document 40) and a completed result
is returned. -/
theorem invalid_document_is_still_analyzed :
    invalidDoc.url = "" ∧
    jsIsValidUrl invalidDoc.url = false ∧
    (analyzeWebpage realRegistry invalidDoc {}).status = .completed ∧
    (analyzeWebpage realRegistry invalidDoc {}).categoryScores.get .semantic_html = 40 := by
  refine ⟨rfl, rfl, rfl, ?_⟩
  decide

/-! ### Claim C4 -/

theorem hasHeadingJump_iff : ∀ (l : List Heading),
    hasHeadingJump l = true ↔ ∃ p ∈ l.zip l.tail, p.1.level + 1 < p.2.level
  | [] => by simp [hasHeadingJump]
  | [a] => by simp [hasHeadingJump]
  | a :: b :: t => by
    have ih := hasHeadingJump_iff (b :: t)
    simp only [hasHeadingJump, Bool.or_eq_true, decide_eq_true_eq, ih,
      List.tail_cons, List.zip_cons_cons, List.mem_cons]
    constructor
    · rintro (h | ⟨p, hp, hlt⟩)
      · exact ⟨(a, b), Or.inl rfl, by simpa using h⟩
      · exact ⟨p, Or.inr hp, hlt⟩
    · rintro ⟨p, hp | hp, hlt⟩
      · subst hp; exact Or.inl (by simpa using hlt)
      · exact Or.inr ⟨p, hp, hlt⟩

/-- C4 (amended): the validator reports invalid exactly when the heading
sequence is empty, the number of level-1 headings differs from one (zero H1s
— a condition the claim omits — or more than one), or some heading's level
exceeds its predecessor's by more than 1; `[H1,H3]` is invalid and
`[H1,H2,H2,H3]` is valid. -/
theorem heading_hierarchy_validator :
    (∀ headings : List Heading,
      (validateHeadingStructure headings).isValid = true ↔
        (headings ≠ [] ∧
         (headings.filter (fun h => h.level = 1)).length = 1 ∧
         ¬ ∃ p ∈ headings.zip headings.tail, p.1.level + 1 < p.2.level)) ∧
    (validateHeadingStructure
      [⟨1, "Title", none⟩, ⟨3, "Detail", none⟩]).isValid = false ∧
    (validateHeadingStructure
      [⟨1, "Title", none⟩, ⟨2, "A", none⟩, ⟨2, "B", none⟩,
       ⟨3, "C", none⟩]).isValid = true := by
  refine ⟨?_, by decide, by decide⟩
  intro headings
  unfold validateHeadingStructure
  by_cases hlen : headings.length = 0
  · simp [hlen, List.length_eq_zero.mp hlen]
  · have hne : headings ≠ [] := by
      intro h; exact hlen (by simp [h])
    simp only [hlen, if_false, Bool.and_eq_true, decide_eq_true_eq,
      Bool.not_eq_true', ← Bool.not_eq_true (hasHeadingJump headings),
      hasHeadingJump_iff]
    constructor
    · rintro ⟨h1, h2⟩
      exact ⟨hne, h1, by simpa using h2⟩
    · rintro ⟨-, h1, h2⟩
      exact ⟨h1, by simpa using h2⟩

/-- C4 counterexample: the single heading sequence `[H2]` satisfies none of
the claim's three invalidity conditions (it is non-empty, has at most one
level-1 heading, and no skipped level), yet the validator reports it
invalid (the code additionally requires at least one H1). -/
theorem heading_hierarchy_missing_h1_counterexample :
    (validateHeadingStructure [⟨2, "Overview", none⟩]).isValid = false ∧
    ([(⟨2, "Overview", none⟩ : Heading)] ≠ []) ∧
    (([(⟨2, "Overview", none⟩ : Heading)].filter
        (fun h => h.level = 1)).length ≤ 1) ∧
    ¬ ∃ p ∈ [(⟨2, "Overview", none⟩ : Heading)].zip
        ([(⟨2, "Overview", none⟩ : Heading)] : List Heading).tail,
        p.1.level + 1 < p.2.level := by
  refine ⟨by decide, by decide, by decide, ?_⟩
  simp

/-! ### Claim C8 -/

/-- C8: the orchestrator is a pure function of the document model and the
options — it is embedded here as a total function with no state, randomness
or time dependence — so repeated calls on the same input return identical
`AnalysisResult`s. -/
theorem analyze_deterministic (data : ScrapedData) (options : AnalysisOptions) :
    analyzeWebpage realRegistry data options = analyzeWebpage realRegistry data options :=
  rfl

/-! ### Claim C9 -/

/-- C9: a 55-character (non-blank) title takes the good-length bonus branch
of the title sub-check — no too-short/too-long issue, score at least the
50+20−5 floor of that branch (strictly above either penalty branch's 45/50
maxima) — and a 155-character description likewise. -/
theorem meta_tag_length_boundary (title description : String)
    (ht : title.data.length = 55) (hbt : isBlank title = false)
    (hd : description.data.length = 155) (hbd : isBlank description = false) :
    (∀ i ∈ (analyzeTitleTag title).2,
        i.title ≠ "Title Too Short" ∧ i.title ≠ "Title Too Long") ∧
    65 ≤ (analyzeTitleTag title).1 ∧
    (∀ i ∈ (analyzeMetaDescription description).2,
        i.title ≠ "Meta Description Too Short" ∧
        i.title ≠ "Meta Description Too Long") ∧
    65 ≤ (analyzeMetaDescription description).1 := by
  refine ⟨?_, ?_, ?_, ?_⟩ <;>
    simp only [analyzeTitleTag, analyzeMetaDescription, hbt, hbd, ht, hd,
      Bool.false_eq_true, if_false] <;>
    norm_num <;>
    split_ifs <;>
    simp_all

set_option maxRecDepth 8000 in
/-- Witness for C9 at a concrete 55-character title and 155-character
description. -/
theorem meta_tag_length_boundary_witness :
    ((⟨List.replicate 55 'a'⟩ : String).data.length = 55 ∧
     isBlank ⟨List.replicate 55 'a'⟩ = false ∧
     (⟨List.replicate 155 'b'⟩ : String).data.length = 155 ∧
     isBlank ⟨List.replicate 155 'b'⟩ = false) ∧
    (65 ≤ (analyzeTitleTag ⟨List.replicate 55 'a'⟩).1 ∧
     65 ≤ (analyzeMetaDescription ⟨List.replicate 155 'b'⟩).1) :=
  ⟨⟨by decide, by decide, by decide, by decide⟩,
   (meta_tag_length_boundary ⟨List.replicate 55 'a'⟩ ⟨List.replicate 155 'b'⟩
      (by decide) (by decide) (by decide) (by decide)).2.1,
   (meta_tag_length_boundary ⟨List.replicate 55 'a'⟩ ⟨List.replicate 155 'b'⟩
      (by decide) (by decide) (by decide) (by decide)).2.2.2⟩

/-! ### Claim C10 -/

/-- C10: when a category has no registered analyzer, `getCategorySummary`
throws (an `Error` with the no-analyzer message), while the batch operation
`analyzeWebpage` silently skips the category and defaults its score to 0,
still returning a completed result. -/
theorem category_summary_vs_batch_missing_analyzer (registry : Registry)
    (data : ScrapedData) (c : AEOCategory) (h : registry c = none) :
    getCategorySummary registry data c =
      .error ("No analyzer found for category: " ++ categoryValue c) ∧
    (analyzeWebpage registry data { categories := some [c] }).status = .completed ∧
    (analyzeWebpage registry data
      { categories := some [c] }).categoryScores.get c = 0 := by
  refine ⟨?_, rfl, ?_⟩
  · simp [getCategorySummary, h]
  · show (fillMissingScores (collectAll registry data _).scores).get c = 0
    rw [fillMissingScores_get]
    have hc : (collectAll registry data { categories := some [c] }).scores =
        PartialScores.empty := by
      simp [collectAll, collectCategory, h]
    rw [hc]
    rfl

/-- Witness for C10: the empty registry on a concrete document. -/
theorem category_summary_missing_analyzer_witness :
    getCategorySummary (fun _ => none) invalidDoc .faq_schema =
      .error ("No analyzer found for category: " ++ categoryValue .faq_schema) ∧
    (analyzeWebpage (fun _ => none) invalidDoc
      { categories := some [.faq_schema] }).status = .completed ∧
    (analyzeWebpage (fun _ => none) invalidDoc
      { categories := some [.faq_schema] }).categoryScores.get .faq_schema = 0 :=
  category_summary_vs_batch_missing_analyzer (fun _ => none) invalidDoc .faq_schema rfl

/-! ### Claim C2 -/

/-- C2 counterexample: a document with zero schema blocks gets FAQ score 0
and exactly one missing-FAQ-schema issue, but that issue's severity is
`high`, not `critical` as the claim states. -/
theorem faq_missing_schema_severity_counterexample :
    (faqAnalyze invalidDoc false).score = 0 ∧
    (faqAnalyze invalidDoc false).issues.length = 1 ∧
    (∀ i ∈ (faqAnalyze invalidDoc false).issues,
      i.title = "Missing FAQ Schema" ∧ i.severity = .high) ∧
    Severity.high ≠ Severity.critical := by
  decide

theorem faqQuality_foldl_ge (entries : List FAQEntry) :
    ∀ acc : Int, (∀ e ∈ entries, isGoodAnswer e.acceptedAnswerText = true) →
      acc + 2 * entries.length ≤ entries.foldl faqQualityStep acc := by
  induction entries with
  | nil => intro acc _; simp
  | cons e t ih =>
    intro acc h
    have he : isGoodAnswer e.acceptedAnswerText = true := h e (by simp)
    have ht : ∀ x ∈ t, isGoodAnswer x.acceptedAnswerText = true :=
      fun x hx => h x (by simp [hx])
    have hstep : acc + 2 ≤ faqQualityStep acc e := by
      simp only [faqQualityStep, he, if_true]
      split <;> omega
    have hrec := ih (faqQualityStep acc e) ht
    simp only [List.foldl_cons, List.length_cons] at *
    omega

/-- C2 (amended): a document with zero schema blocks gets FAQ score 0 and
exactly one missing-FAQ-schema issue of severity high (not critical); a
document with one valid FAQPage schema holding 6 well-formed Q/A entries
(questions ending in "?" with an interrogative word, answers of 20–80
words) scores at least 80 with no critical issues. -/
theorem faq_schema_scoring :
    (∀ (data : ScrapedData) (quick : Bool), data.schemas = [] →
      (faqAnalyze data quick).score = 0 ∧
      ∃ i, (faqAnalyze data quick).issues = [i] ∧
        i.severity = .high ∧ i.title = "Missing FAQ Schema") ∧
    (∀ (data : ScrapedData) (quick : Bool) (s : SchemaMarkup),
      data.schemas = [s] → s.type = "FAQPage" → s.isValid = true →
      s.data.mainEntity.length = 6 →
      (∀ e ∈ s.data.mainEntity,
        strEndsWith e.name "?" = true ∧
        (∃ w ∈ faqQuestionWords, strIncludes (strToLower e.name) w = true) ∧
        20 ≤ jsSplitWsCount e.acceptedAnswerText ∧
        jsSplitWsCount e.acceptedAnswerText ≤ 80) →
      80 ≤ (faqAnalyze data quick).score ∧
      ∀ i ∈ (faqAnalyze data quick).issues, i.severity ≠ .critical) := by
  constructor
  · intro data quick hempty
    simp [faqAnalyze, faqCore, faqSchemaFilter, hempty]
  · intro data quick s hschemas hstype hvalid h6 hwell
    have hgood : ∀ e ∈ s.data.mainEntity, isGoodAnswer e.acceptedAnswerText = true := by
      intro e he
      obtain ⟨-, -, h20, h80⟩ := hwell e he
      have hne : e.acceptedAnswerText ≠ "" := by
        intro hcon
        rw [hcon] at h20
        simp [jsSplitWsCount] at h20
      simp [isGoodAnswer, hne, h20, h80]
    have hfold : (70 : Int) + 2 * s.data.mainEntity.length ≤
        s.data.mainEntity.foldl faqQualityStep 70 :=
      faqQuality_foldl_ge s.data.mainEntity 70 hgood
    rw [h6] at hfold
    have hq : (82 : Int) ≤ evaluateFAQQuality s.data.mainEntity := by
      rw [evaluateFAQQuality]
      omega
    have hfilter : faqSchemaFilter data.schemas = [s] := by
      rw [faqSchemaFilter, hschemas]
      simp [List.filter, hstype]
    have hvfilter : List.filter (fun s => s.isValid) [s] = [s] := by
      simp [List.filter, hvalid]
    have hcore : faqCore data =
        (evaluateFAQQuality s.data.mainEntity, [],
         if evaluateFAQQuality s.data.mainEntity < 80 then
           [{ priority := 3, title := "Optimize FAQ Content",
              description := "Improve FAQ answers for better voice search optimization",
              estimatedImpact := 10, implementationTime := 15 }]
         else []) := by
      simp only [faqCore, hfilter, hvfilter, List.length_cons, List.length_nil]
      norm_num [h6]
    constructor
    · show (80 : ℚ) ≤ (faqAnalyze data quick).score
      have hsc : (faqAnalyze data quick).score =
          min 100 (((faqCore data).1 : Int) : ℚ) := by
        simp [faqAnalyze]
      rw [hsc, hcore]
      dsimp only
      rw [le_min_iff]
      refine ⟨by norm_num, ?_⟩
      have h80 : (80 : Int) ≤ evaluateFAQQuality s.data.mainEntity := by omega
      exact_mod_cast h80
    · intro i hi
      have : (faqAnalyze data quick).issues = (faqCore data).2.1 := by
        simp [faqAnalyze]
      rw [this, hcore] at hi
      simp at hi

/-- An answer of exactly 20 words. -/
def goodAnswer : String := String.intercalate " " (List.replicate 20 "word")

def goodEntry : FAQEntry :=
  { name := "What is answer engine optimization?",
    acceptedAnswerText := goodAnswer }

def faqSchemaBlock : SchemaMarkup :=
  { type := "FAQPage",
    data := { atType := some "FAQPage", mainEntity := List.replicate 6 goodEntry },
    isValid := true }

/-- A document carrying one valid FAQPage schema with six well-formed
question/answer entries. -/
def faqDoc : ScrapedData := { invalidDoc with schemas := [faqSchemaBlock] }

set_option maxRecDepth 40000 in
/-- Witness for C2: both halves applied at concrete documents. -/
theorem faq_schema_scoring_witness :
    (invalidDoc.schemas = [] ∧ (faqAnalyze invalidDoc true).score = 0) ∧
    (faqDoc.schemas = [faqSchemaBlock] ∧ faqSchemaBlock.type = "FAQPage" ∧
     faqSchemaBlock.isValid = true ∧
     faqSchemaBlock.data.mainEntity.length = 6 ∧
     80 ≤ (faqAnalyze faqDoc false).score) :=
  ⟨⟨rfl, (faq_schema_scoring.1 invalidDoc true rfl).1⟩,
   rfl, rfl, rfl, by decide,
   (faq_schema_scoring.2 faqDoc false faqSchemaBlock rfl rfl rfl (by decide)
      (by decide)).1⟩

/-! ### Claim C7 -/

theorem issueLE_trans : ∀ a b c, issueLE a b → issueLE b c → issueLE a c := by
  intro a b c hab hbc
  simp only [issueLE, decide_eq_true_eq] at *
  omega

theorem issueLE_total : ∀ a b, issueLE a b || issueLE b a := by
  intro a b
  simp only [issueLE, Bool.or_eq_true, decide_eq_true_eq]
  omega

theorem recLE_trans : ∀ a b c, recLE a b → recLE b c → recLE a c := by
  intro a b c hab hbc
  simp only [recLE, decide_eq_true_eq] at *
  omega

theorem recLE_total : ∀ a b, recLE a b || recLE b a := by
  intro a b
  simp only [recLE, Bool.or_eq_true, decide_eq_true_eq]
  omega

/-- C7: in every returned result the issues are ordered by severity rank
(critical before high before medium before low), and within one severity the
collected order is preserved; recommendations are ordered by ascending
priority, likewise stably. -/
theorem result_ordering (registry : Registry) (data : ScrapedData)
    (options : AnalysisOptions) :
    (analyzeWebpage registry data options).issues.Pairwise
      (fun a b => getSeverityPriority a.severity ≤ getSeverityPriority b.severity) ∧
    (∀ s : Severity,
      (analyzeWebpage registry data options).issues.filter
          (fun i => i.severity = s) =
        (collectAll registry data options).issues.filter
          (fun i => i.severity = s)) ∧
    (analyzeWebpage registry data options).recommendations.Pairwise
      (fun a b => a.priority ≤ b.priority) ∧
    (∀ p : Int,
      (analyzeWebpage registry data options).recommendations.filter
          (fun r => r.priority = p) =
        (collectAll registry data options).recommendations.filter
          (fun r => r.priority = p)) := by
  refine ⟨?_, ?_, ?_, ?_⟩
  · have h := List.sorted_mergeSort issueLE_trans issueLE_total
      (collectAll registry data options).issues
    exact h.imp (by intro a b hab; simpa [issueLE] using hab)
  · intro s
    exact filter_mergeSort_eq issueLE issueLE_trans issueLE_total _
      (by
        intro a b ha hb
        simp only [decide_eq_true_eq] at ha hb
        simp [issueLE, ha, hb])
      (collectAll registry data options).issues
  · have h := List.sorted_mergeSort recLE_trans recLE_total
      (collectAll registry data options).recommendations
    exact h.imp (by intro a b hab; simpa [recLE] using hab)
  · intro p
    exact filter_mergeSort_eq recLE recLE_trans recLE_total _
      (by
        intro a b ha hb
        simp only [decide_eq_true_eq] at ha hb
        simp [recLE, ha, hb])
      (collectAll registry data options).recommendations

/-! ### Claim C5 -/

theorem PartialScores.set_self (m : PartialScores) (c : AEOCategory) (v : ℚ) :
    (m.set c v) c = some v := by
  simp [PartialScores.set]

theorem PartialScores.set_other (m : PartialScores) (c : AEOCategory) (v : ℚ)
    (c' : AEOCategory) (h : c' ≠ c) : (m.set c v) c' = m c' := by
  simp [PartialScores.set, h]

theorem collectCategory_failing_self (data : ScrapedData) (opts : AnalysisOptions)
    (st : CollectState) (bad : AEOCategory) :
    collectCategory (registryFailingAt bad) data opts st bad =
      { st with scores := st.scores.set bad 0 } := by
  simp [collectCategory, registryFailingAt]

theorem collectCategory_failing_other (data : ScrapedData) (opts : AnalysisOptions)
    (st : CollectState) (bad d : AEOCategory) (h : d ≠ bad) :
    collectCategory (registryFailingAt bad) data opts st d =
      collectCategory realRegistry data opts st d := by
  simp [collectCategory, registryFailingAt, h]

theorem collectCategory_real (data : ScrapedData) (opts : AnalysisOptions)
    (st : CollectState) (d : AEOCategory) :
    collectCategory realRegistry data opts st d =
      { scores := st.scores.set d (categoryAnalyzer d data opts.quick).score,
        issues := st.issues ++ ((categoryAnalyzer d data opts.quick).issues.map
          (fun i => { i with category := d })),
        recommendations :=
          if opts.includeRecommendations then
            st.recommendations ++
              ((categoryAnalyzer d data opts.quick).recommendations.map
                (fun r => { r with category := d }))
          else st.recommendations } := by
  simp [collectCategory, realRegistry]

theorem collect_scores_eq_of_agree (data : ScrapedData) (opts : AnalysisOptions)
    (bad : AEOCategory) :
    ∀ (cats : List AEOCategory) (st₁ st₂ : CollectState),
      (∀ c, c ≠ bad → st₁.scores c = st₂.scores c) →
      ∀ c, c ≠ bad →
        (cats.foldl (collectCategory (registryFailingAt bad) data opts) st₁).scores c =
        (cats.foldl (collectCategory realRegistry data opts) st₂).scores c := by
  intro cats
  induction cats with
  | nil => intro st₁ st₂ hag c hc; simpa using hag c hc
  | cons d rest ih =>
    intro st₁ st₂ hag c hc
    simp only [List.foldl_cons]
    refine ih _ _ ?_ c hc
    intro c' hc'
    by_cases hdb : d = bad
    · subst hdb
      rw [collectCategory_failing_self, collectCategory_real]
      show (st₁.scores.set d 0) c' = (st₂.scores.set d _) c'
      rw [PartialScores.set_other _ _ _ _ hc', PartialScores.set_other _ _ _ _ hc']
      exact hag c' hc'
    · rw [collectCategory_failing_other _ _ _ _ _ hdb, collectCategory_real,
        collectCategory_real]
      show (st₁.scores.set d _) c' = (st₂.scores.set d _) c'
      by_cases hcd : c' = d
      · subst hcd
        rw [PartialScores.set_self, PartialScores.set_self]
      · rw [PartialScores.set_other _ _ _ _ hcd, PartialScores.set_other _ _ _ _ hcd]
        exact hag c' hc'

theorem collect_failing_score_at_bad (data : ScrapedData) (opts : AnalysisOptions)
    (bad : AEOCategory) :
    ∀ (cats : List AEOCategory) (st : CollectState),
      (st.scores bad = none ∨ st.scores bad = some 0) →
      ((cats.foldl (collectCategory (registryFailingAt bad) data opts) st).scores bad = none ∨
       (cats.foldl (collectCategory (registryFailingAt bad) data opts) st).scores bad = some 0) := by
  intro cats
  induction cats with
  | nil => intro st h; simpa using h
  | cons d rest ih =>
    intro st h
    simp only [List.foldl_cons]
    apply ih
    by_cases hdb : d = bad
    · subst hdb
      rw [collectCategory_failing_self]
      right
      exact PartialScores.set_self _ _ _
    · rw [collectCategory_failing_other _ _ _ _ _ hdb, collectCategory_real]
      show (st.scores.set d _) bad = none ∨ (st.scores.set d _) bad = some 0
      rw [PartialScores.set_other _ _ _ _ (Ne.symm hdb)]
      exact h

theorem collect_failing_no_issue_from_bad (data : ScrapedData)
    (opts : AnalysisOptions) (bad : AEOCategory) :
    ∀ (cats : List AEOCategory) (st : CollectState),
      (∀ i ∈ st.issues, i.category ≠ bad) →
      (∀ r ∈ st.recommendations, r.category ≠ bad) →
      (∀ i ∈ (cats.foldl (collectCategory (registryFailingAt bad) data opts) st).issues,
        i.category ≠ bad) ∧
      (∀ r ∈ (cats.foldl (collectCategory (registryFailingAt bad) data opts) st).recommendations,
        r.category ≠ bad) := by
  intro cats
  induction cats with
  | nil => intro st hi hr; exact ⟨hi, hr⟩
  | cons d rest ih =>
    intro st hi hr
    simp only [List.foldl_cons]
    by_cases hdb : d = bad
    · subst hdb
      rw [collectCategory_failing_self]
      exact ih _ hi hr
    · rw [collectCategory_failing_other _ _ _ _ _ hdb, collectCategory_real]
      apply ih
      · intro i hmem
        simp only [List.mem_append, List.mem_map] at hmem
        rcases hmem with hmem | ⟨j, -, rfl⟩
        · exact hi i hmem
        · simpa using hdb
      · intro r hmem
        by_cases hinc : opts.includeRecommendations
        · simp only [hinc, if_true, List.mem_append, List.mem_map] at hmem
          rcases hmem with hmem | ⟨j, -, rfl⟩
          · exact hr r hmem
          · simpa using hdb
        · simp only [hinc] at hmem
          simp at hmem
          exact hr r hmem

/-- C5: injecting a failure into exactly one analyzer zeroes only that
category's score, leaves the other nine scores identical to an uninjected
run, contributes no issues or recommendations for the failed category, and
never surfaces the failure as a whole-result failure. -/
theorem analyzer_failure_isolation (data : ScrapedData)
    (options : AnalysisOptions) (bad : AEOCategory) :
    (analyzeWebpage (registryFailingAt bad) data options).categoryScores.get bad = 0 ∧
    (∀ c, c ≠ bad →
      (analyzeWebpage (registryFailingAt bad) data options).categoryScores.get c =
      (analyzeWebpage realRegistry data options).categoryScores.get c) ∧
    (∀ i ∈ (analyzeWebpage (registryFailingAt bad) data options).issues,
      i.category ≠ bad) ∧
    (∀ r ∈ (analyzeWebpage (registryFailingAt bad) data options).recommendations,
      r.category ≠ bad) ∧
    (analyzeWebpage (registryFailingAt bad) data options).status = .completed := by
  refine ⟨?_, ?_, ?_, ?_, rfl⟩
  · show (fillMissingScores (collectAll (registryFailingAt bad) data options).scores).get bad = 0
    rw [fillMissingScores_get]
    have := collect_failing_score_at_bad data options bad
      (options.categories.getD allCategories)
      { scores := PartialScores.empty, issues := [], recommendations := [] }
      (Or.inl rfl)
    rcases this with h | h <;> simp [collectAll, h]
  · intro c hc
    show (fillMissingScores (collectAll (registryFailingAt bad) data options).scores).get c =
      (fillMissingScores (collectAll realRegistry data options).scores).get c
    rw [fillMissingScores_get, fillMissingScores_get]
    have := collect_scores_eq_of_agree data options bad
      (options.categories.getD allCategories)
      { scores := PartialScores.empty, issues := [], recommendations := [] }
      { scores := PartialScores.empty, issues := [], recommendations := [] }
      (fun _ _ => rfl) c hc
    simp only [collectAll]
    rw [this]
  · intro i hi
    have hmem : i ∈ (collectAll (registryFailingAt bad) data options).issues := by
      have : (analyzeWebpage (registryFailingAt bad) data options).issues =
          ((collectAll (registryFailingAt bad) data options).issues).mergeSort issueLE := rfl
      rw [this] at hi
      exact List.mem_mergeSort.mp hi
    exact (collect_failing_no_issue_from_bad data options bad
      (options.categories.getD allCategories) _ (by simp) (by simp)).1 i hmem
  · intro r hr
    have hmem : r ∈ (collectAll (registryFailingAt bad) data options).recommendations := by
      have : (analyzeWebpage (registryFailingAt bad) data options).recommendations =
          ((collectAll (registryFailingAt bad) data options).recommendations).mergeSort recLE := rfl
      rw [this] at hr
      exact List.mem_mergeSort.mp hr
    exact (collect_failing_no_issue_from_bad data options bad
      (options.categories.getD allCategories) _ (by simp) (by simp)).2 r hmem

/-- Witness for C5 at a concrete document, default options, and a concrete
injected category. -/
theorem analyzer_failure_isolation_witness :
    (analyzeWebpage (registryFailingAt .faq_schema) invalidDoc {}).categoryScores.get
      .faq_schema = 0 ∧
    (analyzeWebpage (registryFailingAt .faq_schema) invalidDoc {}).categoryScores.get
      .semantic_html =
      (analyzeWebpage realRegistry invalidDoc {}).categoryScores.get .semantic_html :=
  ⟨(analyzer_failure_isolation invalidDoc {} .faq_schema).1,
   (analyzer_failure_isolation invalidDoc {} .faq_schema).2.1 .semantic_html
     (by decide)⟩

/-! ### Claim C6: score bounds for every analyzer -/

theorem min_100_bounds {x : Int} (hx : 0 ≤ x) :
    0 ≤ min 100 x ∧ min 100 x ≤ 100 :=
  ⟨le_min (by norm_num) hx, min_le_left _ _⟩

theorem min_100_bounds_q {x : ℚ} (hx : 0 ≤ x) :
    0 ≤ min 100 x ∧ min 100 x ≤ 100 :=
  ⟨le_min (by norm_num) hx, min_le_left _ _⟩

theorem calculateScore_fold_bounds :
    ∀ (l : List (Int × Int)) (a b : Int),
      (∀ f ∈ l, 0 ≤ f.1 ∧ 0 ≤ f.2 ∧ f.2 ≤ 100) →
      0 ≤ a → 0 ≤ b → b ≤ 100 * a →
      (0 ≤ l.foldl (fun s f => s + f.1) a ∧
       0 ≤ l.foldl (fun s f => s + f.2 * f.1) b ∧
       l.foldl (fun s f => s + f.2 * f.1) b ≤
         100 * l.foldl (fun s f => s + f.1) a) := by
  intro l
  induction l with
  | nil => intro a b _ ha hb hba; simpa using ⟨ha, hb, hba⟩
  | cons f t ih =>
    intro a b h ha hb hba
    obtain ⟨hw, hs0, hs100⟩ := h f (by simp)
    have ht : ∀ g ∈ t, 0 ≤ g.1 ∧ 0 ≤ g.2 ∧ g.2 ≤ 100 :=
      fun g hg => h g (by simp [hg])
    have h1 : 0 ≤ a + f.1 := by omega
    have h2 : 0 ≤ b + f.2 * f.1 := add_nonneg hb (mul_nonneg hs0 hw)
    have h3 : b + f.2 * f.1 ≤ 100 * (a + f.1) := by
      have hmul : f.2 * f.1 ≤ 100 * f.1 := mul_le_mul_of_nonneg_right hs100 hw
      linarith
    simpa only [List.foldl_cons] using ih (a + f.1) (b + f.2 * f.1) ht h1 h2 h3

theorem calculateScore_bounds (factors : List (Int × Int))
    (h : ∀ f ∈ factors, 0 ≤ f.1 ∧ 0 ≤ f.2 ∧ f.2 ≤ 100) :
    0 ≤ calculateScore factors ∧ calculateScore factors ≤ 100 := by
  obtain ⟨htw, hws, hle⟩ :=
    calculateScore_fold_bounds factors 0 0 h le_rfl le_rfl (by norm_num)
  unfold calculateScore
  dsimp only
  split
  · rename_i hpos
    constructor
    · exact mathRound_nonneg (div_nonneg (by exact_mod_cast hws) (by exact_mod_cast htw))
    · apply mathRound_le_100
      rw [div_le_iff₀ (by exact_mod_cast hpos)]
      calc ((factors.foldl (fun s f => s + f.2 * f.1) 0 : Int) : ℚ) ≤
          ((100 * factors.foldl (fun s f => s + f.1) 0 : Int) : ℚ) := by
            exact_mod_cast hle
        _ = 100 * ((factors.foldl (fun s f => s + f.1) 0 : Int) : ℚ) := by
            push_cast; ring
  · exact ⟨le_rfl, by norm_num⟩

theorem faqQualityStep_ge (acc : Int) (e : FAQEntry) : acc ≤ faqQualityStep acc e := by
  simp only [faqQualityStep]
  split_ifs <;> omega

theorem foldl_faqQualityStep_ge (l : List FAQEntry) :
    ∀ acc : Int, acc ≤ l.foldl faqQualityStep acc := by
  induction l with
  | nil => intro acc; simp
  | cons e t ih =>
    intro acc
    calc acc ≤ faqQualityStep acc e := faqQualityStep_ge acc e
      _ ≤ (e :: t).foldl faqQualityStep acc := by
          simpa only [List.foldl_cons] using ih (faqQualityStep acc e)

theorem evaluateFAQQuality_bounds (l : List FAQEntry) :
    0 ≤ evaluateFAQQuality l ∧ evaluateFAQQuality l ≤ 100 := by
  unfold evaluateFAQQuality
  have := foldl_faqQualityStep_ge l 70
  exact ⟨le_min (by norm_num) (by omega), min_le_left _ _⟩

theorem faqCore_score_nonneg (data : ScrapedData) : 0 ≤ (faqCore data).1 := by
  unfold faqCore
  dsimp only
  split
  · norm_num
  · split
    · norm_num
    · split
      · norm_num
      · split
        · norm_num
        · exact (evaluateFAQQuality_bounds _).1

theorem faqAnalyze_score_bounds (data : ScrapedData) (quick : Bool) :
    0 ≤ (faqAnalyze data quick).score ∧ (faqAnalyze data quick).score ≤ 100 := by
  have hsc : (faqAnalyze data quick).score = min 100 (((faqCore data).1 : ℚ)) := by
    simp [faqAnalyze]
  rw [hsc]
  exact min_100_bounds_q (by exact_mod_cast faqCore_score_nonneg data)

theorem evaluateArticleSchema_nonneg (d : SchemaData) :
    0 ≤ evaluateArticleSchema d := by
  unfold evaluateArticleSchema
  repeat' apply add_nonneg
  all_goals split <;> norm_num

theorem evaluateOrganizationSchema_nonneg (d : SchemaData) :
    0 ≤ evaluateOrganizationSchema d := by
  unfold evaluateOrganizationSchema
  repeat' apply add_nonneg
  all_goals split <;> norm_num

theorem evaluateLocalBusinessSchema_nonneg (d : SchemaData) :
    0 ≤ evaluateLocalBusinessSchema d := by
  unfold evaluateLocalBusinessSchema
  repeat' apply add_nonneg
  all_goals split <;> norm_num

theorem evaluateProductSchema_nonneg (d : SchemaData) :
    0 ≤ evaluateProductSchema d := by
  unfold evaluateProductSchema
  repeat' apply add_nonneg
  all_goals split <;> norm_num

theorem evaluateGenericSchema_nonneg (d : SchemaData) :
    0 ≤ evaluateGenericSchema d := by
  unfold evaluateGenericSchema
  have h0 : (0 : Int) ≤ min 10 (d.props.length : Int) :=
    le_min (by norm_num) (by positivity)
  repeat' apply add_nonneg
  all_goals first
  | exact h0
  | (split <;> norm_num)

theorem schemaCompletenessOf_nonneg (s : SchemaMarkup) :
    0 ≤ schemaCompletenessOf s := by
  unfold schemaCompletenessOf
  split_ifs
  · exact evaluateArticleSchema_nonneg _
  · exact evaluateOrganizationSchema_nonneg _
  · exact evaluateLocalBusinessSchema_nonneg _
  · exact evaluateProductSchema_nonneg _
  · exact evaluateGenericSchema_nonneg _

theorem evaluateSchemaCompleteness_nonneg (schemas : List SchemaMarkup) :
    0 ≤ evaluateSchemaCompleteness schemas := by
  unfold evaluateSchemaCompleteness
  refine le_min (by norm_num) (div_nonneg ?_ (by positivity))
  have hsum : (0 : Int) ≤ (schemas.map schemaCompletenessOf).sum :=
    List.sum_nonneg (fun x hx => by
      obtain ⟨s, -, rfl⟩ := List.mem_map.1 hx
      exact schemaCompletenessOf_nonneg s)
  exact_mod_cast hsum

theorem calculateSchemaScore_bounds (schemas : List SchemaMarkup) :
    0 ≤ calculateSchemaScore schemas ∧ calculateSchemaScore schemas ≤ 100 := by
  have hcomp := evaluateSchemaCompleteness_nonneg schemas
  have hbase : (0 : Int) ≤
      (30 + min 30 (((schemas.map (fun s => s.type)).dedup.length : Int) * 10)) +
      (if schemas.any (fun s => IMPORTANT_SCHEMA_TYPES.contains s.type) then 20
       else 0) := by
    have hv : (0 : Int) ≤
        min 30 (((schemas.map (fun s => s.type)).dedup.length : Int) * 10) :=
      le_min (by norm_num) (by positivity)
    split_ifs <;> omega
  simp only [calculateSchemaScore]
  exact ⟨le_min (by norm_num) (add_nonneg (by exact_mod_cast hbase) hcomp),
    min_le_left _ _⟩

theorem schemaMarkupRawScore_nonneg (validSchemas : List SchemaMarkup) :
    0 ≤ schemaMarkupRawScore validSchemas := by
  unfold schemaMarkupRawScore
  split
  · norm_num
  · exact (calculateSchemaScore_bounds _).1

theorem schemaMarkupAnalyze_score_bounds (data : ScrapedData) (quick : Bool) :
    0 ≤ (schemaMarkupAnalyze data quick).score ∧
    (schemaMarkupAnalyze data quick).score ≤ 100 := by
  unfold schemaMarkupAnalyze
  dsimp only
  split
  · norm_num
  · exact min_100_bounds_q (schemaMarkupRawScore_nonneg _)

theorem csHeadingPart_bounds (headings : List Heading) :
    0 ≤ (csHeadingPart headings).1 ∧ (csHeadingPart headings).1 ≤ 100 := by
  unfold csHeadingPart
  dsimp only
  split <;> norm_num

theorem csReadabilityPart_bounds (content : String) :
    0 ≤ (csReadabilityPart content).1 ∧ (csReadabilityPart content).1 ≤ 100 := by
  unfold csReadabilityPart
  dsimp only
  split <;> norm_num

theorem csLengthPart_bounds (content : String) :
    0 ≤ (csLengthPart content).1 ∧ (csLengthPart content).1 ≤ 100 := by
  unfold csLengthPart
  dsimp only
  split <;> norm_num

theorem contentStructureAnalyze_score_bounds (data : ScrapedData) (quick : Bool) :
    0 ≤ (contentStructureAnalyze data quick).score ∧
    (contentStructureAnalyze data quick).score ≤ 100 := by
  rw [show (contentStructureAnalyze data quick).score =
      ((calculateScore [(40, (csHeadingPart data.headings).1),
        (30, (csReadabilityPart data.content).1),
        (30, (csLengthPart data.content).1)] : Int) : ℚ) from rfl]
  have h := calculateScore_bounds
      [(40, (csHeadingPart data.headings).1),
       (30, (csReadabilityPart data.content).1),
       (30, (csLengthPart data.content).1)] ?_
  · exact ⟨by exact_mod_cast h.1, by exact_mod_cast h.2⟩
  intro f hf
  simp only [List.mem_cons, List.not_mem_nil, or_false] at hf
  rcases hf with rfl | rfl | rfl
  · exact ⟨by norm_num, (csHeadingPart_bounds _).1, (csHeadingPart_bounds _).2⟩
  · exact ⟨by norm_num, (csReadabilityPart_bounds _).1, (csReadabilityPart_bounds _).2⟩
  · exact ⟨by norm_num, (csLengthPart_bounds _).1, (csLengthPart_bounds _).2⟩

theorem analyzeTitleTag_bounds (title : String) :
    0 ≤ (analyzeTitleTag title).1 ∧ (analyzeTitleTag title).1 ≤ 100 := by
  simp only [analyzeTitleTag]
  split_ifs <;> dsimp only <;> decide

theorem analyzeMetaDescription_bounds (description : String) :
    0 ≤ (analyzeMetaDescription description).1 ∧
    (analyzeMetaDescription description).1 ≤ 100 := by
  simp only [analyzeMetaDescription]
  split_ifs <;> dsimp only <;> decide

theorem analyzeMetaTags_bounds (metaTags : List MetaTag) :
    0 ≤ (analyzeMetaTags metaTags).1 ∧ (analyzeMetaTags metaTags).1 ≤ 100 := by
  simp only [analyzeMetaTags, IMPORTANT_META_TAGS_A, List.foldl]
  split_ifs <;> decide

theorem analyzeOpenGraphTags_bounds (ogTags : List OpenGraphTag) :
    0 ≤ (analyzeOpenGraphTags ogTags).1 ∧ (analyzeOpenGraphTags ogTags).1 ≤ 100 := by
  rcases himg : ogMapGet ogTags "og:image" with - | v <;>
    simp only [analyzeOpenGraphTags, himg, IMPORTANT_OG_TAGS, List.foldl,
      Option.isSome] <;>
    split_ifs <;> decide

theorem analyzeTwitterTags_bounds (metaTags : List MetaTag) :
    0 ≤ (analyzeTwitterTags metaTags).1 ∧ (analyzeTwitterTags metaTags).1 ≤ 100 := by
  simp only [analyzeTwitterTags, IMPORTANT_TWITTER_TAGS, List.foldl]
  split_ifs <;> decide

theorem metaTagsAnalyze_score_bounds (data : ScrapedData) (quick : Bool) :
    0 ≤ (metaTagsAnalyze data quick).score ∧
    (metaTagsAnalyze data quick).score ≤ 100 := by
  rw [show (metaTagsAnalyze data quick).score =
      min 100 ((calculateScore
        [(30, (analyzeTitleTag data.title).1),
         (25, (analyzeMetaDescription data.metaDescription).1),
         (20, (analyzeMetaTags data.metaTags).1),
         (15, (analyzeOpenGraphTags data.openGraphTags).1),
         (10, (analyzeTwitterTags data.metaTags).1)] : Int) : ℚ) from rfl]
  refine min_100_bounds_q ?_
  have hnn := (calculateScore_bounds
      [(30, (analyzeTitleTag data.title).1),
       (25, (analyzeMetaDescription data.metaDescription).1),
       (20, (analyzeMetaTags data.metaTags).1),
       (15, (analyzeOpenGraphTags data.openGraphTags).1),
       (10, (analyzeTwitterTags data.metaTags).1)] ?_).1
  · exact_mod_cast hnn
  intro f hf
  simp only [List.mem_cons, List.not_mem_nil, or_false] at hf
  rcases hf with rfl | rfl | rfl | rfl | rfl
  · exact ⟨by norm_num, (analyzeTitleTag_bounds _).1, (analyzeTitleTag_bounds _).2⟩
  · exact ⟨by norm_num, (analyzeMetaDescription_bounds _).1,
      (analyzeMetaDescription_bounds _).2⟩
  · exact ⟨by norm_num, (analyzeMetaTags_bounds _).1, (analyzeMetaTags_bounds _).2⟩
  · exact ⟨by norm_num, (analyzeOpenGraphTags_bounds _).1,
      (analyzeOpenGraphTags_bounds _).2⟩
  · exact ⟨by norm_num, (analyzeTwitterTags_bounds _).1,
      (analyzeTwitterTags_bounds _).2⟩

theorem categoryAnalyzer_score_bounds (c : AEOCategory) (data : ScrapedData)
    (quick : Bool) :
    0 ≤ (categoryAnalyzer c data quick).score ∧
    (categoryAnalyzer c data quick).score ≤ 100 := by
  cases c
  · exact faqAnalyze_score_bounds data quick
  · exact schemaMarkupAnalyze_score_bounds data quick
  · exact contentStructureAnalyze_score_bounds data quick
  · show 0 ≤ (featuredSnippetsAnalyze data quick).score ∧
        (featuredSnippetsAnalyze data quick).score ≤ 100
    simp only [featuredSnippetsAnalyze]
    split_ifs <;> norm_num
  · show 0 ≤ (entityOptimizationAnalyze data quick).score ∧
        (entityOptimizationAnalyze data quick).score ≤ 100
    simp only [entityOptimizationAnalyze]
    split_ifs <;> norm_num
  · exact metaTagsAnalyze_score_bounds data quick
  · show 0 ≤ (semanticHtmlAnalyze data quick).score ∧
        (semanticHtmlAnalyze data quick).score ≤ 100
    simp only [semanticHtmlAnalyze]
    split_ifs <;> norm_num
  · show 0 ≤ (voiceSearchAnalyze data quick).score ∧
        (voiceSearchAnalyze data quick).score ≤ 100
    simp only [voiceSearchAnalyze]
    split_ifs <;> norm_num
  · show 0 ≤ (knowledgeGraphAnalyze data quick).score ∧
        (knowledgeGraphAnalyze data quick).score ≤ 100
    simp only [knowledgeGraphAnalyze]
    split_ifs <;> norm_num
  · show 0 ≤ (technicalSeoAnalyze data quick).score ∧
        (technicalSeoAnalyze data quick).score ≤ 100
    simp only [technicalSeoAnalyze]
    split_ifs <;> norm_num

theorem collectCategory_scores_other (reg : Registry) (data : ScrapedData)
    (opts : AnalysisOptions) (st : CollectState) (d c : AEOCategory)
    (h : c ≠ d) :
    (collectCategory reg data opts st d).scores c = st.scores c := by
  cases hr : reg d with
  | none => simp [collectCategory, hr]
  | some f =>
    cases hf : f data opts.quick with
    | none => simp [collectCategory, hr, hf, PartialScores.set_other _ _ _ _ h]
    | some res => simp [collectCategory, hr, hf, PartialScores.set_other _ _ _ _ h]

theorem collect_scores_untouched (reg : Registry) (data : ScrapedData)
    (opts : AnalysisOptions) :
    ∀ (cats : List AEOCategory) (st : CollectState) (c : AEOCategory),
      c ∉ cats →
      (cats.foldl (collectCategory reg data opts) st).scores c = st.scores c := by
  intro cats
  induction cats with
  | nil => intro st c _; rfl
  | cons d rest ih =>
    intro st c hc
    simp only [List.mem_cons, not_or] at hc
    simp only [List.foldl_cons]
    rw [ih _ c hc.2, collectCategory_scores_other _ _ _ _ _ _ hc.1]

theorem collectCategory_withfail_true (data : ScrapedData)
    (opts : AnalysisOptions) (fail : AEOCategory → Bool) (st : CollectState)
    (d : AEOCategory) (h : fail d = true) :
    collectCategory (registryWithFailures fail) data opts st d =
      { st with scores := st.scores.set d 0 } := by
  simp [collectCategory, registryWithFailures, h]

theorem collectCategory_withfail_false (data : ScrapedData)
    (opts : AnalysisOptions) (fail : AEOCategory → Bool) (st : CollectState)
    (d : AEOCategory) (h : fail d = false) :
    collectCategory (registryWithFailures fail) data opts st d =
      collectCategory realRegistry data opts st d := by
  simp [collectCategory, registryWithFailures, h]

theorem collect_withfail_bounds (data : ScrapedData) (opts : AnalysisOptions)
    (fail : AEOCategory → Bool) :
    ∀ (cats : List AEOCategory) (st : CollectState),
      (∀ c v, st.scores c = some v → 0 ≤ v ∧ v ≤ 100) →
      ∀ c v,
        (cats.foldl (collectCategory (registryWithFailures fail) data opts) st).scores c =
          some v → 0 ≤ v ∧ v ≤ 100 := by
  intro cats
  induction cats with
  | nil => intro st h c v hv; exact h c v hv
  | cons d rest ih =>
    intro st h c v
    simp only [List.foldl_cons]
    apply ih
    intro c' v' hv'
    by_cases hfd : fail d = true
    · rw [collectCategory_withfail_true data opts fail st d hfd] at hv'
      dsimp only at hv'
      by_cases hcd : c' = d
      · subst hcd
        rw [PartialScores.set_self] at hv'
        cases hv'
        norm_num
      · rw [PartialScores.set_other _ _ _ _ hcd] at hv'
        exact h c' v' hv'
    · rw [collectCategory_withfail_false data opts fail st d
        (Bool.not_eq_true _ ▸ hfd), collectCategory_real] at hv'
      dsimp only at hv'
      by_cases hcd : c' = d
      · subst hcd
        rw [PartialScores.set_self] at hv'
        cases hv'
        exact categoryAnalyzer_score_bounds c' data opts.quick
      · rw [PartialScores.set_other _ _ _ _ hcd] at hv'
        exact h c' v' hv'

theorem collect_withfail_failed_zero (data : ScrapedData)
    (opts : AnalysisOptions) (fail : AEOCategory → Bool) (c : AEOCategory)
    (hc : fail c = true) :
    ∀ (cats : List AEOCategory) (st : CollectState),
      (st.scores c = none ∨ st.scores c = some 0) →
      ((cats.foldl (collectCategory (registryWithFailures fail) data opts) st).scores c = none ∨
       (cats.foldl (collectCategory (registryWithFailures fail) data opts) st).scores c = some 0) := by
  intro cats
  induction cats with
  | nil => intro st h; exact h
  | cons d rest ih =>
    intro st h
    simp only [List.foldl_cons]
    apply ih
    by_cases hdc : d = c
    · subst hdc
      rw [collectCategory_withfail_true data opts fail st d hc]
      right
      exact PartialScores.set_self _ _ _
    · rw [collectCategory_scores_other _ _ _ _ _ _ (fun hch => hdc hch.symm)]
      exact h

/-- C6: for every document, every options value (any requested subset) and
every injected failure pattern, the returned `categoryScores` carries exactly
the ten fixed keys, each value lies in `[0, 100]`, and a category that was
not requested or whose analyzer failed is present with value 0. -/
theorem category_coverage (data : ScrapedData) (options : AnalysisOptions)
    (fail : AEOCategory → Bool) :
    ((categoryScoreEntries
        (analyzeWebpage (registryWithFailures fail) data options).categoryScores).map
      Prod.fst =
      ["faqSchema", "schemaMarkup", "contentStructure", "featuredSnippets",
       "entityOptimization", "metaTags", "semanticHtml", "voiceSearch",
       "knowledgeGraph", "technicalSeo"]) ∧
    (∀ c,
      0 ≤ (analyzeWebpage (registryWithFailures fail) data options).categoryScores.get c ∧
      (analyzeWebpage (registryWithFailures fail) data options).categoryScores.get c ≤ 100) ∧
    (∀ c, c ∉ options.categories.getD allCategories →
      (analyzeWebpage (registryWithFailures fail) data options).categoryScores.get c = 0) ∧
    (∀ c, fail c = true →
      (analyzeWebpage (registryWithFailures fail) data options).categoryScores.get c = 0) := by
  have heq : (analyzeWebpage (registryWithFailures fail) data options).categoryScores =
      fillMissingScores (collectAll (registryWithFailures fail) data options).scores := rfl
  refine ⟨rfl, ?_, ?_, ?_⟩
  · intro c
    rw [heq, fillMissingScores_get]
    rcases hv : (collectAll (registryWithFailures fail) data options).scores c with - | v
    · simp
    · simp only [Option.getD_some]
      exact collect_withfail_bounds data options fail
        (options.categories.getD allCategories)
        { scores := PartialScores.empty, issues := [], recommendations := [] }
        (fun _ _ hx => by cases hx) c v hv
  · intro c hc
    rw [heq, fillMissingScores_get]
    rw [show (collectAll (registryWithFailures fail) data options).scores c =
        PartialScores.empty c from
      collect_scores_untouched _ data options _ _ c hc]
    rfl
  · intro c hcf
    rw [heq, fillMissingScores_get]
    rcases collect_withfail_failed_zero data options fail c hcf
        (options.categories.getD allCategories)
        { scores := PartialScores.empty, issues := [], recommendations := [] }
        (Or.inl rfl) with h | h <;> simp [collectAll] at h ⊢ <;> simp [h]

/-- Witness for C6 at a concrete document, a single-category request, and a
concrete injected failure. -/
theorem category_coverage_witness :
    (0 ≤ (analyzeWebpage (registryWithFailures (fun c => c = .schema_markup))
        invalidDoc { categories := some [.faq_schema] }).categoryScores.get
        .faq_schema ∧
     (analyzeWebpage (registryWithFailures (fun c => c = .schema_markup))
        invalidDoc { categories := some [.faq_schema] }).categoryScores.get
        .faq_schema ≤ 100) ∧
    (analyzeWebpage (registryWithFailures (fun c => c = .schema_markup))
        invalidDoc { categories := some [.faq_schema] }).categoryScores.get
        .meta_tags = 0 ∧
    (analyzeWebpage (registryWithFailures (fun c => c = .schema_markup))
        invalidDoc { categories := some [.faq_schema] }).categoryScores.get
        .schema_markup = 0 :=
  ⟨(category_coverage invalidDoc { categories := some [.faq_schema] }
      (fun c => c = .schema_markup)).2.1 .faq_schema,
   (category_coverage invalidDoc { categories := some [.faq_schema] }
      (fun c => c = .schema_markup)).2.2.1 .meta_tags (by decide),
   (category_coverage invalidDoc { categories := some [.faq_schema] }
      (fun c => c = .schema_markup)).2.2.2 .schema_markup (by decide)⟩
